import Mathlib

/-!
# Verification of the ATR grid-trader decision engine

Shallow embedding of the decision core of the `atr-grid-trader` repository:
the indicator pipeline (`indicators.py`), the strategy engine
(`strategy.py`, class `GridStrategy`) and the trigger ledger
(`persistence.py`, class `GridStateManager`).

Modelling conventions:
* Python floats are modelled as exact rationals (`ℚ`); all comparisons in
  the source are plain arithmetic comparisons, so the control flow is
  preserved exactly on inputs where no float rounding artefact is involved.
* A pandas `NaN` cell is modelled as `Option.none`; a comparison with a
  `NaN` operand is `False` in pandas, which the embedding mirrors by
  explicit `match` tests.
* Python `int(x)` (truncation towards zero) is `int_trunc`; Python floor
  division `//` is `Int.floor` of the quotient.
* The SQLite stores are modelled as in-memory lists; only the success path
  of the (logged, never-raising) database code is modelled.
-/

namespace AtrGrid

/-- Order side, field `TradeOrder.direction` in `strategy.py`. -/
inductive Direction
  | BUY
  | SELL
  deriving DecidableEq, Repr, Inhabited

/-- Order type, field `TradeOrder.type` in `strategy.py` (`LIMIT`/`MARKET`). -/
inductive OrderType
  | LIMIT
  | MARKET
  deriving DecidableEq, Repr, Inhabited

/-- Market regime zones, the `zone` strings of `strategy.py` lines 194-212. -/
inductive Zone
  | DEEP_DIP
  | GOLD_ZONE
  | OSCILLATION
  | REDUCE_ZONE
  | ESCAPE_ZONE
  deriving DecidableEq, Repr, Inhabited

/-- The `market_status` strings produced by `GridStrategy.analyze`:
`INSUFFICIENT_DATA`, `INSUFFICIENT_INDICATORS`, the five zone banners,
`OSCILLATION (SWITCH)` and `ESCAPE_HIGH`. -/
inductive MarketStatus
  | INSUFFICIENT_DATA
  | INSUFFICIENT_INDICATORS
  | ZONE (zone : Zone)
  | OSCILLATION_SWITCH
  | ESCAPE_HIGH
  deriving DecidableEq, Repr, Inhabited

/-- `TradeOrder` dataclass of `strategy.py` (lines 10-16).  The `amount`
field is annotated `int` in the source but Python does not enforce it and
`min(int, float)` can produce a float, so it is modelled as `ℚ`. -/
structure TradeOrder where
  direction : Direction
  price : ℚ
  amount : ℚ
  type : OrderType := OrderType.LIMIT
  desc : String := ""
  deriving DecidableEq, Repr, Inhabited

/-- `TradePlan` dataclass of `strategy.py` (lines 18-29). -/
structure TradePlan where
  code : String
  current_price : ℚ
  current_bias : ℚ
  market_status : MarketStatus
  target_pos_pct : ℚ
  suggested_orders : List TradeOrder := []
  warnings : List String := []
  risk_triggered : Bool := false
  support : ℚ := 0
  resistance : ℚ := 0
  deriving DecidableEq, Repr, Inhabited

/-- The `current_holdings` dict consumed by `analyze`
(keys `volume`, `available`, `avg_cost`, each defaulted to 0). -/
structure Holdings where
  volume : ℚ := 0
  available : ℚ := 0
  avg_cost : ℚ := 0
  deriving DecidableEq, Repr, Inhabited

/-- A row of the `grid_pairs` table as returned by
`GridStateManager.get_active_pairs` (`persistence.py`), restricted to the
fields `analyze` reads.  `buy_amount` is an SQLite `INTEGER` column. -/
structure GridPair where
  id : ℤ := 0
  buy_price : ℚ := 0
  buy_amount : ℤ := 0
  target_sell_price : ℚ := 0
  deriving DecidableEq, Repr, Inhabited

/-- One OHLCV bar of the candle feed (`df` rows before indicator
enrichment). -/
structure Candle where
  open_ : ℚ := 0
  high : ℚ := 0
  low : ℚ := 0
  close : ℚ := 0
  volume : ℚ := 0
  deriving DecidableEq, Repr, Inhabited

/-- One row of the indicator-enriched frame produced by
`calculate_indicators` (`indicators.py`).  `none` models a pandas `NaN`.
`rsi_14` is `fillna(100)`-ed in the source and hence always defined. -/
structure IndRow where
  high : ℚ := 0
  low : ℚ := 0
  close : ℚ := 0
  ma5 : Option ℚ := none
  bias20 : Option ℚ := none
  atr14 : Option ℚ := none
  rsi14 : ℚ := 100
  kdjJ : Option ℚ := none
  deriving DecidableEq, Repr, Inhabited

/-! ## Configuration (`config.py`) -/

/-- `config.LOT_SIZE` (minimum tradable unit, 100 shares). -/
def LOT_SIZE : ℤ := 100

/-- `config.TOTAL_CAPITAL`. -/
def TOTAL_CAPITAL : ℚ := 200000

/-- `config.ETF_COUNT`. -/
def ETF_COUNT : ℚ := 5

/-- `config.CAPITAL_PER_ETF = TOTAL_CAPITAL / ETF_COUNT` (= 40000). -/
def CAPITAL_PER_ETF : ℚ := TOTAL_CAPITAL / ETF_COUNT

/-- `config.MIN_PROFIT_PCT`. -/
def MIN_PROFIT_PCT : ℚ := 0.012

/-- `config.MAX_DRAWDOWN_LIMIT`. -/
def MAX_DRAWDOWN_LIMIT : ℚ := -0.20

namespace BIAS_THRESHOLDS

/-- `config.BIAS_THRESHOLDS.DEEP_DIP`. -/
def DEEP_DIP : ℚ := -6.0

/-- `config.BIAS_THRESHOLDS.GOLD_ZONE_UPPER`. -/
def GOLD_ZONE_UPPER : ℚ := -3.0

/-- `config.BIAS_THRESHOLDS.OSCILLATION_UPPER`. -/
def OSCILLATION_UPPER : ℚ := 5.0

/-- `config.BIAS_THRESHOLDS.REDUCE_ZONE_UPPER`. -/
def REDUCE_ZONE_UPPER : ℚ := 12.0

/-- `config.BIAS_THRESHOLDS.ESCAPE_TOP_HIGH`. -/
def ESCAPE_TOP_HIGH : ℚ := 15.0

/-- `config.BIAS_THRESHOLDS.TREND_REVERSAL`. -/
def TREND_REVERSAL : ℚ := 3.0

end BIAS_THRESHOLDS

/-- `config.TARGET_POSITION`, read via `getattr(conf.TARGET_POSITION, zone)`. -/
def TARGET_POSITION : Zone → ℚ
  | Zone.DEEP_DIP => 0.95
  | Zone.GOLD_ZONE => 0.75
  | Zone.OSCILLATION => 0.55
  | Zone.REDUCE_ZONE => 0.30
  | Zone.ESCAPE_ZONE => 0.0

/-- `config.GRID_COEFFICIENT`, read via `.get(zone, 1.0)`; the dict has no
`ESCAPE_ZONE` key, so that zone takes the default `1.0`. -/
def GRID_COEFFICIENT : Zone → ℚ
  | Zone.DEEP_DIP => 0.8
  | Zone.GOLD_ZONE => 1.0
  | Zone.OSCILLATION => 1.2
  | Zone.REDUCE_ZONE => 1.5
  | Zone.ESCAPE_ZONE => 1.0

namespace DYNAMIC_GRID

/-- `config.DYNAMIC_GRID.LOW_VOLATILITY_ATR`. -/
def LOW_VOLATILITY_ATR : ℚ := 0.015

/-- `config.DYNAMIC_GRID.HIGH_VOLATILITY_ATR`. -/
def HIGH_VOLATILITY_ATR : ℚ := 0.03

/-- `config.DYNAMIC_GRID.LOW_VOL_MULTIPLIER`. -/
def LOW_VOL_MULTIPLIER : ℚ := 0.8

/-- `config.DYNAMIC_GRID.HIGH_VOL_MULTIPLIER`. -/
def HIGH_VOL_MULTIPLIER : ℚ := 1.3

end DYNAMIC_GRID

namespace DYNAMIC_PROFIT_CONFIG

/-- `config.DYNAMIC_PROFIT_CONFIG.HIGH_VOLATILITY_PCT`. -/
def HIGH_VOLATILITY_PCT : ℚ := 0.03

/-- `config.DYNAMIC_PROFIT_CONFIG.HIGH_PROFIT_TARGET`. -/
def HIGH_PROFIT_TARGET : ℚ := 0.020

/-- `config.DYNAMIC_PROFIT_CONFIG.LOW_VOLATILITY_PCT`. -/
def LOW_VOLATILITY_PCT : ℚ := 0.015

/-- `config.DYNAMIC_PROFIT_CONFIG.LOW_PROFIT_TARGET`. -/
def LOW_PROFIT_TARGET : ℚ := 0.010

end DYNAMIC_PROFIT_CONFIG

namespace RSI_CONFIG

/-- `config.RSI_CONFIG.SELL_THRESHOLD`. -/
def SELL_THRESHOLD : ℚ := 75

end RSI_CONFIG

namespace TREND_TRACKING

/-- `config.TREND_TRACKING.LOOKBACK_DAYS`. -/
def LOOKBACK_DAYS : ℕ := 3

/-- `config.TREND_TRACKING.TREND_THRESHOLD`. -/
def TREND_THRESHOLD : ℚ := 2.0

end TREND_TRACKING

/-- The literal `REBALANCE_THRESHOLD = 0.15` local to `analyze`
(`strategy.py` line 344). -/
def REBALANCE_THRESHOLD : ℚ := 0.15

/-! ## Strategy helpers (`strategy.py`) -/

/-- Python `int(x)`: truncation towards zero. -/
def int_trunc (x : ℚ) : ℤ := if 0 ≤ x then ⌊x⌋ else ⌈x⌉

/-- `GridStrategy._round_to_lot`: `int(amount // LOT_SIZE * LOT_SIZE)`.
`//` floors, so the result is `⌊amount / 100⌋ * 100` (the outer `int` is
the identity on the integral float it receives). -/
def round_to_lot (amount : ℚ) : ℤ := ⌊amount / (LOT_SIZE : ℚ)⌋ * LOT_SIZE

/-- `GridStrategy._calc_dynamic_step` (`strategy.py` lines 69-102). -/
def calc_dynamic_step (atr : ℚ) (price : ℚ) (zone : Zone) : ℚ :=
  let grid_coef := GRID_COEFFICIENT zone
  let base_step := atr * grid_coef
  let atr_pct := atr / price
  let base_step1 :=
    if atr_pct < DYNAMIC_GRID.LOW_VOLATILITY_ATR then
      base_step * DYNAMIC_GRID.LOW_VOL_MULTIPLIER
    else if atr_pct > DYNAMIC_GRID.HIGH_VOLATILITY_ATR then
      base_step * DYNAMIC_GRID.HIGH_VOL_MULTIPLIER
    else base_step
  let min_profit_pct :=
    if atr_pct > DYNAMIC_PROFIT_CONFIG.HIGH_VOLATILITY_PCT then
      DYNAMIC_PROFIT_CONFIG.HIGH_PROFIT_TARGET
    else if atr_pct < DYNAMIC_PROFIT_CONFIG.LOW_VOLATILITY_PCT then
      DYNAMIC_PROFIT_CONFIG.LOW_PROFIT_TARGET
    else MIN_PROFIT_PCT
  let min_step := price * min_profit_pct
  max base_step1 min_step

/-- The five-way `bias` classification chain of `analyze`
(`strategy.py` lines 194-208), before the trend-reversal override. -/
def raw_zone (bias : ℚ) : Zone :=
  if bias < BIAS_THRESHOLDS.DEEP_DIP then Zone.DEEP_DIP
  else if bias < BIAS_THRESHOLDS.GOLD_ZONE_UPPER then Zone.GOLD_ZONE
  else if bias < BIAS_THRESHOLDS.OSCILLATION_UPPER then Zone.OSCILLATION
  else if bias < BIAS_THRESHOLDS.REDUCE_ZONE_UPPER then Zone.REDUCE_ZONE
  else Zone.ESCAPE_ZONE

/-- `bias_cross_down_3` (`strategy.py` lines 190-191): the previous bias
may be `NaN` (e.g. at the first defined bias row), in which case the
pandas comparison `prev_bias > 3` is `False`. -/
def bias_cross_down_3 (bias : ℚ) (prev_bias : Option ℚ) : Bool :=
  (match prev_bias with
   | some pb => decide (pb > BIAS_THRESHOLDS.TREND_REVERSAL)
   | none => false)
  && decide (bias ≤ BIAS_THRESHOLDS.TREND_REVERSAL)

/-- Zone determination of `analyze` (`strategy.py` lines 190-212):
the raw chain plus the trend-reversal override to
`OSCILLATION (SWITCH)`. -/
def classify_zone (bias : ℚ) (prev_bias : Option ℚ) : Zone × MarketStatus :=
  let zone := raw_zone bias
  if bias_cross_down_3 bias prev_bias = true ∧ zone ≠ Zone.DEEP_DIP then
    (Zone.OSCILLATION, MarketStatus.OSCILLATION_SWITCH)
  else (zone, MarketStatus.ZONE zone)

/-- `GridStrategy._detect_trend` (`strategy.py` lines 39-67).  The daily
`bias_20` changes are compared against the threshold; a change with a
`NaN` operand compares `False` on both sides. -/
def detect_trend (df : List IndRow) : Bool × Bool × String :=
  let days := TREND_TRACKING.LOOKBACK_DAYS
  let threshold := TREND_TRACKING.TREND_THRESHOLD
  if df.length < days + 1 then (false, false, "")
  else
    let recent_bias := (df.drop (df.length - (days + 1))).map IndRow.bias20
    let daily_changes := (recent_bias.zip recent_bias.tail).map
      (fun p => match p.1, p.2 with
        | some a, some b => some (b - a)
        | _, _ => none)
    let all_rising := daily_changes.all
      (fun c => match c with
        | some x => decide (x > threshold)
        | none => false)
    let all_falling := daily_changes.all
      (fun c => match c with
        | some x => decide (x < -threshold)
        | none => false)
    if all_rising then (true, false, "sustained uptrend")
    else if all_falling then (false, true, "sustained downtrend")
    else (false, false, "")

/-- `GridStrategy._calc_support_resistance` (`strategy.py` lines 104-120):
min low / max high over the last `lookback` rows (truncated to the frame
length).  The frame is nonempty at every call site, so the `getD 0`
default of the empty-list minimum is never consumed. -/
def calc_support_resistance (df : List IndRow) (lookback : ℕ) : ℚ × ℚ × ℚ :=
  let lb := if df.length < lookback then df.length else lookback
  let recent := df.drop (df.length - lb)
  let support := ((recent.map IndRow.low).min?).getD 0
  let resistance := ((recent.map IndRow.high).max?).getD 0
  (support, resistance, (support + resistance) / 2)

/-- `df['high'].rolling(window=20).max().iloc[-1]` (`strategy.py` line
288): the max of the last 20 highs, `NaN` when fewer than 20 rows
exist. -/
def recent_high_20 (df : List IndRow) : Option ℚ :=
  if 20 ≤ df.length then ((df.drop (df.length - 20)).map IndRow.high).max?
  else none

/-- The trailing-stop test `retracement > 3 * atr` (`strategy.py` line
293); `False` when the 20-day rolling high is still `NaN`. -/
def trailing_retr_exceeds (df : List IndRow) (price atr : ℚ) : Bool :=
  match recent_high_20 df with
  | some rh => decide (rh - price > 3 * atr)
  | none => false

/-- The KDJ oversold test `kdj_j < 10` (`strategy.py` line 236); `False`
on a `NaN` J value. -/
def kdj_oversold (kdjJ : Option ℚ) : Bool :=
  match kdjJ with
  | some j => decide (j < 10)
  | none => false

/-- The grid-pairing exit loop of `analyze` (`strategy.py` lines 314-331):
for each active pair whose target is within the 0.5% tolerance, emit a
LIMIT SELL for its `buy_amount` if the running available counter covers
it, and decrement the counter.  Returns (orders, final counter,
warnings). -/
def pair_exits (price : ℚ) : ℚ → List GridPair → List TradeOrder × ℚ × List String
  | avail, [] => ([], avail, [])
  | avail, pair :: rest =>
    if price ≥ pair.target_sell_price * 0.995 then
      if avail ≥ (pair.buy_amount : ℚ) then
        let r := pair_exits price (avail - (pair.buy_amount : ℚ)) rest
        ({ direction := Direction.SELL,
           price := max price pair.target_sell_price,
           amount := (pair.buy_amount : ℚ),
           type := OrderType.LIMIT,
           desc := "pair take profit" } :: r.1,
         r.2.1, "pair take profit triggered" :: r.2.2)
      else pair_exits price avail rest
    else pair_exits price avail rest

/-- The base lot (`strategy.py` lines 369-370):
`max(round_to_lot(0.05 * CAPITAL_PER_ETF / anchor), LOT_SIZE)`. -/
def base_lot_amount (anchor_price : ℚ) : ℤ :=
  max (round_to_lot (CAPITAL_PER_ETF * 0.05 / anchor_price)) LOT_SIZE

/-- The per-zone standard grid orders (`strategy.py` lines 372-402). -/
def grid_orders_of (atr : ℚ) (zone : Zone) (anchor_price rsi : ℚ)
    (is_uptrend is_downtrend risk : Bool) (avail1 : ℚ) : List TradeOrder :=
  let step_price := calc_dynamic_step atr anchor_price zone
  let lot_amount : ℤ := base_lot_amount anchor_price
  if zone = Zone.DEEP_DIP then
    if risk = false then
      if rsi > 75 then []
      else
        [{ direction := Direction.BUY, price := anchor_price - step_price,
           amount := ((int_trunc ((lot_amount : ℚ) * 1.5)) : ℚ),
           type := OrderType.LIMIT, desc := "deep dip grid buy 1" },
         { direction := Direction.BUY, price := anchor_price - 2 * step_price,
           amount := ((int_trunc ((lot_amount : ℚ) * 1.5)) : ℚ),
           type := OrderType.LIMIT, desc := "deep dip grid buy 2" }]
    else []
  else if zone = Zone.REDUCE_ZONE ∨ zone = Zone.ESCAPE_ZONE then
    if avail1 > 0 ∧ is_downtrend = false then
      [{ direction := Direction.SELL, price := anchor_price + step_price,
         amount := min avail1 ((int_trunc ((lot_amount : ℚ) * 1.5)) : ℚ),
         type := OrderType.LIMIT, desc := "reduce grid sell 1" }]
    else []
  else
    (if risk = false ∧ is_uptrend = false ∧ rsi < 75 then
      [{ direction := Direction.BUY, price := anchor_price - step_price,
         amount := (lot_amount : ℚ),
         type := OrderType.LIMIT, desc := "grid buy 1" }]
     else []) ++
    (if avail1 > 0 ∧ is_downtrend = false then
      [{ direction := Direction.SELL, price := anchor_price + step_price,
         amount := min avail1 (lot_amount : ℚ),
         type := OrderType.LIMIT, desc := "grid sell 1" }]
     else [])

/-- Stage 4 of `analyze` (`strategy.py` lines 366-404): the per-zone
standard grid orders assembled into the final plan.  `avail1` is the
available counter left by the pair-exit loop.  The source compares `zone`
against the list `['REDUCE_ZONE','ESCAPE_ZONE','ESCAPE_HIGH']`; the
`zone` variable is never the string `'ESCAPE_HIGH'` (only `market_status`
is), so only the first two tests can match. -/
def grid_generation (code : String) (price bias atr : ℚ) (zone : Zone)
    (market_status : MarketStatus) (target_pos_pct support resistance anchor_price rsi : ℚ)
    (is_uptrend is_downtrend risk : Bool) (avail1 : ℚ)
    (pair_orders : List TradeOrder) (warns : List String) : TradePlan :=
  { code := code, current_price := price, current_bias := bias,
    market_status := market_status, target_pos_pct := target_pos_pct,
    suggested_orders := pair_orders ++
      grid_orders_of atr zone anchor_price rsi is_uptrend is_downtrend risk avail1,
    warnings := warns,
    risk_triggered := risk, support := support, resistance := resistance }

/-- `current_pos_pct` of the rebalance stage (`strategy.py` lines
337-339): `price * volume / CAPITAL_PER_ETF`, guarded by
`total_assets > 0`. -/
def current_pos_pct (price vol : ℚ) : ℚ :=
  if CAPITAL_PER_ETF > 0 then price * vol / CAPITAL_PER_ETF else 0

/-- `pos_deviation = target_pos_pct - current_pos_pct` (`strategy.py` line
342). -/
def pos_deviation_of (target price vol : ℚ) : ℚ :=
  target - current_pos_pct price vol

/-- The damped rebalance order size (`strategy.py` lines 350-352):
`round_to_lot(total_assets * (pos_deviation * 0.5) / price)`. -/
def rebalance_amount (target price vol : ℚ) : ℤ :=
  round_to_lot (CAPITAL_PER_ETF * (pos_deviation_of target price vol * 0.5) / price)

/-- Stages 3-4 of `analyze` (`strategy.py` lines 314-404): the grid-pair
exit loop, the rebalance check (which returns early when it emits its
MARKET BUY) and, otherwise, standard grid generation. -/
def analyze_rest (code : String) (price bias atr : ℚ) (zone : Zone)
    (market_status : MarketStatus) (target_pos_pct support resistance anchor_price rsi : ℚ)
    (is_uptrend is_downtrend risk : Bool) (current_vol current_avail : ℚ)
    (pairs : List GridPair) (warns : List String) : TradePlan :=
  let pe := pair_exits price current_avail pairs
  let pair_orders := pe.1
  let avail1 := pe.2.1
  let warns1 := warns ++ pe.2.2
  let pos_deviation := pos_deviation_of target_pos_pct price current_vol
  if pos_deviation > REBALANCE_THRESHOLD ∧ risk = false ∧
      (zone = Zone.DEEP_DIP ∨ zone = Zone.GOLD_ZONE) then
    let buy_amount := rebalance_amount target_pos_pct price current_vol
    if buy_amount > 0 then
      { code := code, current_price := price, current_bias := bias,
        market_status := market_status, target_pos_pct := target_pos_pct,
        suggested_orders := pair_orders ++
          [{ direction := Direction.BUY, price := price,
             amount := (buy_amount : ℚ),
             type := OrderType.MARKET, desc := "rebalance top-up" }],
        warnings := warns1 ++ ["rebalance triggered"],
        risk_triggered := risk, support := support, resistance := resistance }
    else
      grid_generation code price bias atr zone market_status target_pos_pct
        support resistance anchor_price rsi is_uptrend is_downtrend risk
        avail1 pair_orders warns1
  else
    grid_generation code price bias atr zone market_status target_pos_pct
      support resistance anchor_price rsi is_uptrend is_downtrend risk
      avail1 pair_orders warns1

/-- The drawdown circuit breaker test (`strategy.py` lines 267-271):
holding exists, has a positive average cost, and the unrealised loss is
below `MAX_DRAWDOWN_LIMIT`. -/
def drawdown_triggered (price : ℚ) (hold : Holdings) : Bool :=
  decide (hold.volume > 0) && decide (hold.avg_cost > 0) &&
  decide ((price - hold.avg_cost) / hold.avg_cost < MAX_DRAWDOWN_LIMIT)

/-- Dynamic anchoring (`strategy.py` lines 246-257): current close in
DEEP_DIP, otherwise `ma_5` when defined, else the close. -/
def anchor_of (zone : Zone) (price : ℚ) (ma5 : Option ℚ) : ℚ :=
  if zone = Zone.DEEP_DIP then price
  else
    match ma5 with
    | some m => m
    | none => price

/-- The advisory warnings accumulated before the trailing stop
(`strategy.py` lines 228-276, in source order: RSI safety lock, KDJ
oversold, drawdown circuit breaker, trend lock). -/
def base_warnings (rsi : ℚ) (kdjJ : Option ℚ) (zone : Zone)
    (drawdown is_uptrend is_downtrend : Bool) : List String :=
  (if rsi > RSI_CONFIG.SELL_THRESHOLD then ["RSI overbought, pausing buys"] else []) ++
  (if kdj_oversold kdjJ = true ∧ zone = Zone.DEEP_DIP then
    ["KDJ oversold, bottoming signal"] else []) ++
  (if drawdown = true then ["drawdown circuit breaker, pausing buys"] else []) ++
  (if is_uptrend = true then ["sustained uptrend, pausing buys"] else []) ++
  (if is_downtrend = true then ["sustained downtrend, pausing sells"] else [])

/-- The escape-top override (`strategy.py` lines 279-281): above
`ESCAPE_TOP_HIGH` the status is forced to `ESCAPE_HIGH` and the target
position to 0; otherwise status and target follow the zone. -/
def escape_override (bias : ℚ) (ms : MarketStatus) (zone : Zone) : MarketStatus × ℚ :=
  if bias > BIAS_THRESHOLDS.ESCAPE_TOP_HIGH then (MarketStatus.ESCAPE_HIGH, (0 : ℚ))
  else (ms, TARGET_POSITION zone)

/-- The trailing-stop sell size before the availability cap
(`strategy.py` lines 298-299): `round_to_lot(max(100, int(vol * 0.5)))`. -/
def trailing_sell_vol (vol : ℚ) : ℤ :=
  round_to_lot ((max 100 (int_trunc (vol * 0.5)) : ℤ) : ℚ)

/-- The main body of `analyze` (`strategy.py` lines 179-404), entered once
the last row's `bias_20` and `atr_14` are defined: zone classification,
warnings, anchoring, the drawdown circuit breaker, trend detection, the
escape-top override, then the ATR trailing stop (which returns early when
it emits its MARKET SELL) and the remaining stages. -/
def analyze_main (code : String) (df : List IndRow) (current prev : IndRow)
    (bias atr : ℚ) (hold : Holdings) (pairs : List GridPair) : TradePlan :=
  let price := current.close
  let rsi := current.rsi14
  let zs := classify_zone bias prev.bias20
  let zone := zs.1
  let sr := calc_support_resistance df 20
  let support := sr.1
  let resistance := sr.2.1
  let anchor_price := anchor_of zone price current.ma5
  let current_vol := hold.volume
  let current_avail := hold.available
  let drawdown := drawdown_triggered price hold
  let td := detect_trend df
  let is_uptrend := td.1
  let is_downtrend := td.2.1
  let warns2 := base_warnings rsi current.kdjJ zone drawdown is_uptrend is_downtrend
  let msT := escape_override bias zs.2 zone
  let market_status := msT.1
  let target_pos_pct := msT.2
  if trailing_retr_exceeds df price atr = true ∧ current_vol > 0 then
    let sell_vol := trailing_sell_vol current_vol
    let warns3 := warns2 ++ ["ATR trailing stop triggered"]
    if sell_vol > 0 ∧ current_avail > 0 then
      { code := code, current_price := price, current_bias := bias,
        market_status := market_status, target_pos_pct := target_pos_pct,
        suggested_orders :=
          [{ direction := Direction.SELL, price := price,
             amount := min ((sell_vol : ℤ) : ℚ) current_avail,
             type := OrderType.MARKET, desc := "ATR trailing stop" }],
        warnings := warns3, risk_triggered := true,
        support := support, resistance := resistance }
    else
      analyze_rest code price bias atr zone market_status target_pos_pct
        support resistance anchor_price rsi is_uptrend is_downtrend true
        current_vol current_avail pairs warns3
  else
    analyze_rest code price bias atr zone market_status target_pos_pct
      support resistance anchor_price rsi is_uptrend is_downtrend drawdown
      current_vol current_avail pairs warns2

/-- `df.iloc[-1]`. -/
def last_row (df : List IndRow) : IndRow := df[df.length - 1]?.getD default

/-- `df.iloc[-2]`. -/
def prev_row (df : List IndRow) : IndRow := df[df.length - 2]?.getD default

/-- `GridStrategy.analyze` (`strategy.py` lines 159-404) on an
indicator-enriched frame: the two data-sufficiency gates followed by
`analyze_main`. -/
def analyze (code : String) (df : List IndRow) (hold : Holdings)
    (pairs : List GridPair) : TradePlan :=
  if df.length < 5 then
    { code := code, current_price := 0, current_bias := 0,
      market_status := MarketStatus.INSUFFICIENT_DATA, target_pos_pct := 0,
      warnings := ["insufficient data"] }
  else
    let current := last_row df
    let prev := prev_row df
    match current.bias20, current.atr14 with
    | some bias, some atr => analyze_main code df current prev bias atr hold pairs
    | _, _ =>
      { code := code, current_price := current.close, current_bias := 0,
        market_status := MarketStatus.INSUFFICIENT_INDICATORS, target_pos_pct := 0 }

/-! ## Indicator pipeline (`indicators.py`) -/

/-- The trailing window of length `k` ending at index `i` (inclusive) of a
series, i.e. the entries at indices `i + 1 - k, …, i`. -/
def trailing_window (xs : List ℚ) (k i : ℕ) : List ℚ :=
  (xs.take (i + 1)).drop (i + 1 - k)

/-- `series.rolling(window=k).mean()` at index `i`: `NaN` (`none`) until
`k` values are available. -/
def sma_at (xs : List ℚ) (k i : ℕ) : Option ℚ :=
  if k ≤ i + 1 then some ((trailing_window xs k i).sum / (k : ℚ)) else none

/-- True range at index `i` (`indicators.py` lines 31-41):
`max(high-low, |high-prevClose|, |low-prevClose|)`.  At index 0 the two
previous-close terms are `NaN` and `pandas.concat(...).max(axis=1)` skips
them, leaving `high - low`. -/
def tr_at (cs : List Candle) (i : ℕ) : ℚ :=
  let c := cs.getD i default
  if i = 0 then c.high - c.low
  else
    let pc := (cs.getD (i - 1) default).close
    max (c.high - c.low) (max |c.high - pc| |c.low - pc|)

/-- The full true-range series. -/
def tr_series (cs : List Candle) : List ℚ :=
  (List.range cs.length).map (tr_at cs)

/-- `bias_20` at index `i` (`indicators.py` line 27):
`(close - ma_20) / ma_20 * 100`, `NaN` while `ma_20` is. -/
def bias_at (cs : List Candle) (i : ℕ) : Option ℚ :=
  match sma_at (cs.map Candle.close) 20 i with
  | some m => some (((cs.getD i default).close - m) / m * 100)
  | none => none

/-- `rsi_14` at index `i` (`indicators.py` lines 50-57).  The rolling
14-means of gains and losses need deltas at indices `i-13, …, i`, all of
which exist only for `i ≥ 14` (the delta at index 0 is `NaN`).  A zero
average loss gives `rs = ∞` or `NaN`, and in both cases the final
`fillna`-ed value is 100. -/
def rsi_at (cs : List Candle) (i : ℕ) : ℚ :=
  let closes := cs.map Candle.close
  let delta := fun j : ℕ => closes.getD j 0 - closes.getD (j - 1) 0
  let gain := fun j : ℕ => if delta j > 0 then delta j else 0
  let loss := fun j : ℕ => if delta j < 0 then -(delta j) else 0
  if 14 ≤ i then
    let gavg := ((List.range 14).map (fun j => gain (i - 13 + j))).sum / 14
    let lavg := ((List.range 14).map (fun j => loss (i - 13 + j))).sum / 14
    if lavg = 0 then 100
    else 100 - 100 / (1 + gavg / lavg)
  else 100

/-- `RSV` at index `i` (`indicators.py` lines 61-63): `NaN` before 9 rows
exist or when the 9-period high equals the 9-period low (division
`0/0`). -/
def rsv_at (cs : List Candle) (i : ℕ) : Option ℚ :=
  if 8 ≤ i then
    let low9 := ((trailing_window (cs.map Candle.low) 9 i).min?).getD 0
    let high9 := ((trailing_window (cs.map Candle.high) 9 i).max?).getD 0
    if high9 = low9 then none
    else some (((cs.getD i default).close - low9) / (high9 - low9) * 100)
  else none

/-- `kdj_k` (`rsv.ewm(com=2, adjust=False).mean()`, `indicators.py` line
68): `y = (2 * y_prev + x) / 3`, seeded by the first defined RSV; the ewm
statistic carries over rows whose RSV is `NaN`. -/
def k_state (cs : List Candle) : ℕ → Option ℚ
  | 0 => rsv_at cs 0
  | i + 1 =>
    match k_state cs i, rsv_at cs (i + 1) with
    | none, r => r
    | some k, none => some k
    | some k, some r => some ((2 * k + r) / 3)

/-- `kdj_d` (`indicators.py` line 69): the same smoothing applied to the
`kdj_k` series. -/
def d_state (cs : List Candle) : ℕ → Option ℚ
  | 0 => k_state cs 0
  | i + 1 =>
    match d_state cs i, k_state cs (i + 1) with
    | none, k => k
    | some d, none => some d
    | some d, some k => some ((2 * d + k) / 3)

/-- `kdj_j = 3K - 2D` (`indicators.py` line 70). -/
def j_at (cs : List Candle) (i : ℕ) : Option ℚ :=
  match k_state cs i, d_state cs i with
  | some k, some d => some (3 * k - 2 * d)
  | _, _ => none

/-- One enriched row of `calculate_indicators (indicators.py`). -/
def ind_row_at (cs : List Candle) (i : ℕ) : IndRow :=
  { high := (cs.getD i default).high,
    low := (cs.getD i default).low,
    close := (cs.getD i default).close,
    ma5 := sma_at (cs.map Candle.close) 5 i,
    bias20 := bias_at cs i,
    atr14 := sma_at (tr_series cs) 14 i,
    rsi14 := rsi_at cs i,
    kdjJ := j_at cs i }

/-- `calculate_indicators` (`indicators.py` lines 5-72) as a whole-frame
map. -/
def calculate_indicators (cs : List Candle) : List IndRow :=
  (List.range cs.length).map (ind_row_at cs)

/-- `analyze` on a raw candle frame: the `'bias_20' not in df.columns`
branch of `analyze` computes the indicators first (`strategy.py` lines
164-165). -/
def analyze_candles (code : String) (cs : List Candle) (hold : Holdings)
    (pairs : List GridPair) : TradePlan :=
  analyze code (calculate_indicators cs) hold pairs

/-! ## Trigger ledger (`persistence.py`) -/

/-- One row of the `triggered_grids` table
(primary key `(date, code, price, direction)`). -/
structure TriggerRecord where
  date : String
  code : String
  price : ℚ
  direction : String
  timestamp : String
  deriving DecidableEq, Repr, Inhabited

/-- Exact match on the `triggered_grids` primary key, as SQLite evaluates
the uniqueness constraint behind `INSERT OR IGNORE`. -/
def same_key (r : TriggerRecord) (date code : String) (price : ℚ)
    (direction : String) : Bool :=
  r.date = date && r.code = code && decide (r.price = price) && r.direction = direction

/-- `GridStateManager.mark_grid_triggered` (`persistence.py` lines 84-96):
`INSERT OR IGNORE` into `triggered_grids`; a row with an equal primary key
makes the insert a no-op. -/
def mark_grid_triggered (store : List TriggerRecord) (date code : String)
    (price : ℚ) (direction : String) (timestamp : String) : List TriggerRecord :=
  if store.any (fun r => same_key r date code price direction) then store
  else store ++ [{ date := date, code := code, price := price,
                   direction := direction, timestamp := timestamp }]

/-- `GridStateManager.is_grid_triggered` (`persistence.py` lines 66-82):
`SELECT 1 ... WHERE date=? AND code=? AND ABS(price - ?) < 0.0001 AND
direction=?` — price equality up to the fixed absolute tolerance
`0.0001`. -/
def is_grid_triggered (store : List TriggerRecord) (date code : String)
    (price : ℚ) (direction : String) : Bool :=
  store.any (fun r =>
    r.date = date && r.code = code && decide (|r.price - price| < 0.0001) &&
    r.direction = direction)

/-! ## Spec-side definitions (for refinement comparisons) -/

/-- Modelled from the spec: the zone map as §4.2 words it — half-open
intervals over the four ordered thresholds, `ESCAPE_ZONE` being the
unbounded top interval. -/
def spec_zone_map (bias : ℚ) : Zone :=
  if bias < BIAS_THRESHOLDS.DEEP_DIP then Zone.DEEP_DIP
  else if bias < BIAS_THRESHOLDS.GOLD_ZONE_UPPER then Zone.GOLD_ZONE
  else if bias < BIAS_THRESHOLDS.OSCILLATION_UPPER then Zone.OSCILLATION
  else if bias < BIAS_THRESHOLDS.REDUCE_ZONE_UPPER then Zone.REDUCE_ZONE
  else Zone.ESCAPE_ZONE

/-- Position of a zone in the threshold order, to state monotonicity of
the classification. -/
def Zone.idx : Zone → ℕ
  | Zone.DEEP_DIP => 0
  | Zone.GOLD_ZONE => 1
  | Zone.OSCILLATION => 2
  | Zone.REDUCE_ZONE => 3
  | Zone.ESCAPE_ZONE => 4

/-- Modelled from the spec (§4.3): the volatility multiplier bucket keyed
by `atr/price`. -/
def volatility_multiplier (atr price : ℚ) : ℚ :=
  if atr / price < DYNAMIC_GRID.LOW_VOLATILITY_ATR then DYNAMIC_GRID.LOW_VOL_MULTIPLIER
  else if atr / price > DYNAMIC_GRID.HIGH_VOLATILITY_ATR then DYNAMIC_GRID.HIGH_VOL_MULTIPLIER
  else 1

/-- Modelled from the spec (§4.3): the minimum-profit percentage bucket
keyed by `atr/price`. -/
def min_profit_bucket (atr price : ℚ) : ℚ :=
  if atr / price > DYNAMIC_PROFIT_CONFIG.HIGH_VOLATILITY_PCT then
    DYNAMIC_PROFIT_CONFIG.HIGH_PROFIT_TARGET
  else if atr / price < DYNAMIC_PROFIT_CONFIG.LOW_VOLATILITY_PCT then
    DYNAMIC_PROFIT_CONFIG.LOW_PROFIT_TARGET
  else MIN_PROFIT_PCT

/-- Sum of the amounts of the SELL orders of a plan. -/
def sum_sell (orders : List TradeOrder) : ℚ :=
  ((orders.filter (fun o => o.direction = Direction.SELL)).map TradeOrder.amount).sum

/-- An amount that is an integer multiple of the configured lot size. -/
def is_lot_multiple (a : ℚ) : Prop := ∃ k : ℤ, a = (k : ℚ) * (LOT_SIZE : ℚ)

/-- An amount that is an integer multiple of half the configured lot
size. -/
def is_half_lot_multiple (a : ℚ) : Prop := ∃ k : ℤ, a = (k : ℚ) * ((LOT_SIZE : ℚ) / 2)

/-! ## Helper lemmas -/

theorem sum_sell_nil : sum_sell [] = 0 := rfl

theorem sum_sell_cons (o : TradeOrder) (l : List TradeOrder) :
    sum_sell (o :: l) =
      (if o.direction = Direction.SELL then o.amount else 0) + sum_sell l := by
  simp only [sum_sell, List.filter_cons]
  split_ifs with h <;> simp_all

theorem sum_sell_append (l1 l2 : List TradeOrder) :
    sum_sell (l1 ++ l2) = sum_sell l1 + sum_sell l2 := by
  simp [sum_sell, List.filter_append]

theorem sum_sell_singleton (o : TradeOrder) :
    sum_sell [o] = if o.direction = Direction.SELL then o.amount else 0 := by
  rw [sum_sell_cons, sum_sell_nil, add_zero]

theorem round_to_lot_lot_multiple (x : ℚ) :
    is_lot_multiple ((round_to_lot x : ℤ) : ℚ) :=
  ⟨⌊x / (LOT_SIZE : ℚ)⌋, by unfold round_to_lot; push_cast; ring⟩

theorem int_trunc_intCast (n : ℤ) : int_trunc ((n : ℤ) : ℚ) = n := by
  unfold int_trunc
  split <;> simp

theorem round_to_lot_ge_of_ge (k : ℤ) (h : 100 ≤ k) :
    100 ≤ round_to_lot ((k : ℤ) : ℚ) := by
  unfold round_to_lot LOT_SIZE
  have h1 : (1 : ℤ) ≤ ⌊((k : ℤ) : ℚ) / ((100 : ℤ) : ℚ)⌋ := by
    rw [Int.le_floor]
    push_cast
    rw [le_div_iff₀ (by norm_num)]
    have h2 : (100 : ℚ) ≤ (k : ℚ) := by exact_mod_cast h
    linarith
  nlinarith [h1]

theorem int_trunc_nonneg (x : ℚ) (h : 0 ≤ x) : 0 ≤ int_trunc x := by
  unfold int_trunc
  rw [if_pos h]
  exact Int.floor_nonneg.mpr h

theorem trailing_sell_vol_pos (vol : ℚ) : 0 < trailing_sell_vol vol := by
  unfold trailing_sell_vol
  have h : (100 : ℤ) ≤ max 100 (int_trunc (vol * 0.5)) := le_max_left _ _
  have := round_to_lot_ge_of_ge _ h
  omega

theorem trailing_sell_vol_lot (vol : ℚ) :
    is_lot_multiple ((trailing_sell_vol vol : ℤ) : ℚ) :=
  round_to_lot_lot_multiple _

theorem is_lot_multiple_half (a : ℚ) (h : is_lot_multiple a) :
    is_half_lot_multiple a := by
  obtain ⟨k, hk⟩ := h
  exact ⟨2 * k, by rw [hk]; unfold LOT_SIZE; push_cast; ring⟩

theorem is_lot_multiple_min (a b : ℚ) (ha : is_lot_multiple a)
    (hb : is_lot_multiple b) : is_lot_multiple (min a b) := by
  rcases min_cases a b with ⟨h, _⟩ | ⟨h, _⟩ <;> rw [h] <;> assumption

theorem is_half_lot_multiple_min (a b : ℚ) (ha : is_half_lot_multiple a)
    (hb : is_half_lot_multiple b) : is_half_lot_multiple (min a b) := by
  rcases min_cases a b with ⟨h, _⟩ | ⟨h, _⟩ <;> rw [h] <;> assumption

theorem is_lot_multiple_sub (a b : ℚ) (ha : is_lot_multiple a)
    (hb : is_lot_multiple b) : is_lot_multiple (a - b) := by
  obtain ⟨k, hk⟩ := ha
  obtain ⟨m, hm⟩ := hb
  exact ⟨k - m, by rw [hk, hm]; push_cast; ring⟩

theorem is_lot_multiple_intCast_of_dvd (n : ℤ) (h : LOT_SIZE ∣ n) :
    is_lot_multiple ((n : ℤ) : ℚ) := by
  obtain ⟨m, hm⟩ := h
  exact ⟨m, by rw [hm]; push_cast; ring⟩

theorem base_lot_amount_ge (anchor : ℚ) : 100 ≤ base_lot_amount anchor := by
  unfold base_lot_amount LOT_SIZE
  exact le_max_right _ _

theorem base_lot_amount_lot (anchor : ℚ) :
    is_lot_multiple ((base_lot_amount anchor : ℤ) : ℚ) := by
  unfold base_lot_amount
  rcases max_cases (round_to_lot (CAPITAL_PER_ETF * 0.05 / anchor)) LOT_SIZE with
    ⟨h, _⟩ | ⟨h, _⟩ <;> rw [h]
  · exact round_to_lot_lot_multiple _
  · exact ⟨1, by unfold LOT_SIZE; norm_num⟩

/-- `int(lot_amount * 1.5)` for a lot multiple `lot_amount = 100 * k` is
exactly `150 * k`: a half-lot multiple. -/
theorem deep_amount_eq (lot_amount : ℤ) (k : ℤ)
    (hk : ((lot_amount : ℤ) : ℚ) = (k : ℚ) * (LOT_SIZE : ℚ)) :
    ((int_trunc ((lot_amount : ℚ) * 1.5) : ℤ) : ℚ) = (3 * k : ℤ) * ((LOT_SIZE : ℚ) / 2) := by
  have h1 : ((lot_amount : ℤ) : ℚ) * 1.5 = ((150 * k : ℤ) : ℚ) := by
    rw [hk]; unfold LOT_SIZE; push_cast; ring
  rw [h1, int_trunc_intCast]
  unfold LOT_SIZE
  push_cast
  ring

theorem pair_exits_sum_sell (price : ℚ) (pairs : List GridPair) :
    ∀ avail : ℚ,
      sum_sell (pair_exits price avail pairs).1 + (pair_exits price avail pairs).2.1 = avail := by
  induction pairs with
  | nil => intro avail; simp [pair_exits, sum_sell_nil]
  | cons p rest ih =>
    intro avail
    simp only [pair_exits]
    split_ifs with h1 h2
    · have hrec := ih (avail - (p.buy_amount : ℚ))
      simp [sum_sell_cons]
      linarith
    · exact ih avail
    · exact ih avail

theorem pair_exits_avail_nonneg (price : ℚ) (pairs : List GridPair) :
    ∀ avail : ℚ, 0 ≤ avail → 0 ≤ (pair_exits price avail pairs).2.1 := by
  induction pairs with
  | nil => intro avail h; simpa [pair_exits] using h
  | cons p rest ih =>
    intro avail h
    simp only [pair_exits]
    split_ifs with h1 h2
    · exact ih _ (by linarith)
    · exact ih avail h
    · exact ih avail h

theorem pair_exits_mem (price : ℚ) (pairs : List GridPair) :
    ∀ (avail : ℚ) (o : TradeOrder), o ∈ (pair_exits price avail pairs).1 →
      o.direction = Direction.SELL ∧ o.type = OrderType.LIMIT ∧
      ∃ p ∈ pairs, o.amount = (p.buy_amount : ℚ) := by
  induction pairs with
  | nil => intro avail o h; simp [pair_exits] at h
  | cons p rest ih =>
    intro avail o h
    simp only [pair_exits] at h
    split_ifs at h with h1 h2
    · rcases List.mem_cons.mp h with h | h
      · subst h
        exact ⟨rfl, rfl, p, List.mem_cons_self _ _, rfl⟩
      · obtain ⟨hd, ht, q, hq, ha⟩ := ih _ o h
        exact ⟨hd, ht, q, List.mem_cons_of_mem _ hq, ha⟩
    · obtain ⟨hd, ht, q, hq, ha⟩ := ih avail o h
      exact ⟨hd, ht, q, List.mem_cons_of_mem _ hq, ha⟩
    · obtain ⟨hd, ht, q, hq, ha⟩ := ih avail o h
      exact ⟨hd, ht, q, List.mem_cons_of_mem _ hq, ha⟩

theorem pair_exits_length (price : ℚ) (pairs : List GridPair) :
    ∀ avail : ℚ, (pair_exits price avail pairs).1.length ≤ pairs.length := by
  induction pairs with
  | nil => intro avail; simp [pair_exits]
  | cons p rest ih =>
    intro avail
    simp only [pair_exits, List.length_cons]
    split_ifs with h1 h2
    · simpa using Nat.succ_le_succ (ih _)
    · exact Nat.le_succ_of_le (ih avail)
    · exact Nat.le_succ_of_le (ih avail)

theorem pair_exits_avail_lot (price : ℚ) (pairs : List GridPair) :
    ∀ avail : ℚ, is_lot_multiple avail →
      (∀ p ∈ pairs, LOT_SIZE ∣ p.buy_amount) →
      is_lot_multiple (pair_exits price avail pairs).2.1 := by
  induction pairs with
  | nil => intro avail h _; simpa [pair_exits] using h
  | cons p rest ih =>
    intro avail h hdvd
    simp only [pair_exits]
    split_ifs with h1 h2
    · refine ih _ ?_ (fun q hq => hdvd q (List.mem_cons_of_mem _ hq))
      exact is_lot_multiple_sub _ _ h
        (is_lot_multiple_intCast_of_dvd _ (hdvd p (List.mem_cons_self _ _)))
    · exact ih avail h (fun q hq => hdvd q (List.mem_cons_of_mem _ hq))
    · exact ih avail h (fun q hq => hdvd q (List.mem_cons_of_mem _ hq))

section StrategyLemmas

variable (code : String) (df : List IndRow) (price bias atr : ℚ) (zone : Zone)
  (market_status : MarketStatus)
  (target_pos_pct support resistance anchor_price rsi : ℚ)
  (is_uptrend is_downtrend risk : Bool) (current_vol current_avail avail1 : ℚ)
  (pairs : List GridPair) (warns : List String)

theorem grid_orders_sum_sell (h : 0 ≤ avail1) :
    sum_sell (grid_orders_of atr zone anchor_price rsi is_uptrend is_downtrend risk avail1)
      ≤ avail1 := by
  unfold grid_orders_of
  rcases zone <;> simp only [reduceCtorEq, if_true, if_false] <;>
    split_ifs <;>
    simp [sum_sell_nil, sum_sell_cons, sum_sell_append, min_le_left, h]

theorem grid_orders_risk_sells (h : risk = true) :
    (grid_orders_of atr zone anchor_price rsi is_uptrend is_downtrend risk avail1).length ≤ 1 ∧
    ∀ o ∈ grid_orders_of atr zone anchor_price rsi is_uptrend is_downtrend risk avail1,
      o.direction = Direction.SELL := by
  subst h
  unfold grid_orders_of
  rcases zone <;>
    simp only [reduceCtorEq, if_true, if_false, false_and, Bool.true_eq_false] <;>
    (try split_ifs) <;> simp_all

theorem grid_orders_deep_risk (h : risk = true) :
    grid_orders_of atr Zone.DEEP_DIP anchor_price rsi is_uptrend is_downtrend risk avail1
      = [] := by
  subst h
  simp only [grid_orders_of]
  rw [if_pos trivial, if_neg (by simp)]

theorem grid_orders_amounts (h0 : 0 ≤ avail1) (h1 : is_lot_multiple avail1) :
    ∀ o ∈ grid_orders_of atr zone anchor_price rsi is_uptrend is_downtrend risk avail1,
      0 ≤ o.amount ∧ is_half_lot_multiple o.amount := by
  obtain ⟨k, hk⟩ := base_lot_amount_lot anchor_price
  have hge : (100 : ℚ) ≤ ((base_lot_amount anchor_price : ℤ) : ℚ) := by
    exact_mod_cast base_lot_amount_ge anchor_price
  have hk1 : (1 : ℤ) ≤ k := by
    by_contra hcon
    push_neg at hcon
    have hkq : (k : ℚ) ≤ 0 := by
      have hk0 : k ≤ 0 := by omega
      exact_mod_cast hk0
    rw [hk] at hge
    unfold LOT_SIZE at hge
    push_cast at hge
    nlinarith
  have hk1q : (1 : ℚ) ≤ (k : ℚ) := by exact_mod_cast hk1
  have hdeep := deep_amount_eq (base_lot_amount anchor_price) k hk
  have hdeep_nonneg :
      (0 : ℚ) ≤ ((int_trunc ((base_lot_amount anchor_price : ℚ) * 1.5) : ℤ) : ℚ) := by
    rw [hdeep]
    unfold LOT_SIZE
    push_cast
    nlinarith
  have hdeep_half : is_half_lot_multiple
      ((int_trunc ((base_lot_amount anchor_price : ℚ) * 1.5) : ℤ) : ℚ) :=
    ⟨3 * k, hdeep⟩
  have hlot_half : is_half_lot_multiple ((base_lot_amount anchor_price : ℤ) : ℚ) :=
    is_lot_multiple_half _ ⟨k, hk⟩
  have hlot_nonneg : (0 : ℚ) ≤ ((base_lot_amount anchor_price : ℤ) : ℚ) := by linarith
  have havail_half : is_half_lot_multiple avail1 := is_lot_multiple_half _ h1
  intro o ho
  unfold grid_orders_of at ho
  rcases zone
  · rw [if_pos rfl] at ho
    split_ifs at ho
    · simp at ho
    · simp only [List.mem_cons, List.not_mem_nil, or_false] at ho
      rcases ho with rfl | rfl
      · exact ⟨hdeep_nonneg, hdeep_half⟩
      · exact ⟨hdeep_nonneg, hdeep_half⟩
    · simp at ho
  · rw [if_neg (by simp), if_neg (by simp)] at ho
    split_ifs at ho
    · simp only [List.mem_append, List.mem_cons, List.not_mem_nil, or_false] at ho
      rcases ho with rfl | rfl
      · exact ⟨hlot_nonneg, hlot_half⟩
      · exact ⟨le_min h0 hlot_nonneg, is_half_lot_multiple_min _ _ havail_half hlot_half⟩
    · simp only [List.mem_append, List.mem_cons, List.not_mem_nil, or_false, false_or] at ho
      rcases ho with rfl
      exact ⟨hlot_nonneg, hlot_half⟩
    · simp only [List.mem_append, List.mem_cons, List.not_mem_nil, or_false, false_or] at ho
      rcases ho with rfl
      exact ⟨le_min h0 hlot_nonneg, is_half_lot_multiple_min _ _ havail_half hlot_half⟩
    · simp at ho
  · rw [if_neg (by simp), if_neg (by simp)] at ho
    split_ifs at ho
    · simp only [List.mem_append, List.mem_cons, List.not_mem_nil, or_false] at ho
      rcases ho with rfl | rfl
      · exact ⟨hlot_nonneg, hlot_half⟩
      · exact ⟨le_min h0 hlot_nonneg, is_half_lot_multiple_min _ _ havail_half hlot_half⟩
    · simp only [List.mem_append, List.mem_cons, List.not_mem_nil, or_false, false_or] at ho
      rcases ho with rfl
      exact ⟨hlot_nonneg, hlot_half⟩
    · simp only [List.mem_append, List.mem_cons, List.not_mem_nil, or_false, false_or] at ho
      rcases ho with rfl
      exact ⟨le_min h0 hlot_nonneg, is_half_lot_multiple_min _ _ havail_half hlot_half⟩
    · simp at ho
  · rw [if_neg (by simp), if_pos (by simp)] at ho
    split_ifs at ho
    · simp only [List.mem_cons, List.not_mem_nil, or_false] at ho
      rcases ho with rfl
      exact ⟨le_min h0 hdeep_nonneg, is_half_lot_multiple_min _ _ havail_half hdeep_half⟩
    · simp at ho
  · rw [if_neg (by simp), if_pos (by simp)] at ho
    split_ifs at ho
    · simp only [List.mem_cons, List.not_mem_nil, or_false] at ho
      rcases ho with rfl
      exact ⟨le_min h0 hdeep_nonneg, is_half_lot_multiple_min _ _ havail_half hdeep_half⟩
    · simp at ho

theorem analyze_rest_risk_triggered :
    (analyze_rest code price bias atr zone market_status target_pos_pct
      support resistance anchor_price rsi is_uptrend is_downtrend risk
      current_vol current_avail pairs warns).risk_triggered = risk := by
  simp only [analyze_rest]
  split_ifs <;> rfl

theorem analyze_rest_sum_sell (h : 0 ≤ current_avail) :
    sum_sell (analyze_rest code price bias atr zone market_status target_pos_pct
      support resistance anchor_price rsi is_uptrend is_downtrend risk
      current_vol current_avail pairs warns).suggested_orders ≤ current_avail := by
  have hps := pair_exits_sum_sell price pairs current_avail
  have hnn := pair_exits_avail_nonneg price pairs current_avail h
  have hg := grid_orders_sum_sell atr zone anchor_price rsi is_uptrend is_downtrend risk
    (pair_exits price current_avail pairs).2.1 hnn
  simp only [analyze_rest]
  split_ifs with h1 h2
  · simp only [sum_sell_append, sum_sell_singleton]
    simp only [reduceCtorEq, if_false]
    linarith
  · simp only [grid_generation, sum_sell_append]
    linarith
  · simp only [grid_generation, sum_sell_append]
    linarith

theorem analyze_rest_risk_sells (h : risk = true) :
    (∀ o ∈ (analyze_rest code price bias atr zone market_status target_pos_pct
      support resistance anchor_price rsi is_uptrend is_downtrend risk
      current_vol current_avail pairs warns).suggested_orders,
      o.direction = Direction.SELL) ∧
    (analyze_rest code price bias atr zone market_status target_pos_pct
      support resistance anchor_price rsi is_uptrend is_downtrend risk
      current_vol current_avail pairs warns).suggested_orders.length ≤
        pairs.length + 1 := by
  subst h
  have hlen := pair_exits_length price pairs current_avail
  have hmem := pair_exits_mem price pairs current_avail
  have hg := grid_orders_risk_sells atr zone anchor_price rsi is_uptrend is_downtrend true
    (pair_exits price current_avail pairs).2.1 rfl
  simp only [analyze_rest]
  rw [if_neg (by simp)]
  constructor
  · intro o ho
    simp only [grid_generation, List.mem_append] at ho
    rcases ho with ho | ho
    · exact (hmem o ho).1
    · exact hg.2 o ho
  · simp only [grid_generation, List.length_append]
    omega

theorem analyze_rest_rebalance (hrisk : risk = false)
    (hzone : zone = Zone.DEEP_DIP ∨ zone = Zone.GOLD_ZONE)
    (hdev : pos_deviation_of target_pos_pct price current_vol > REBALANCE_THRESHOLD)
    (hamt : rebalance_amount target_pos_pct price current_vol > 0) :
    (analyze_rest code price bias atr zone market_status target_pos_pct
      support resistance anchor_price rsi is_uptrend is_downtrend risk
      current_vol current_avail pairs warns).suggested_orders =
      (pair_exits price current_avail pairs).1 ++
        [{ direction := Direction.BUY, price := price,
           amount := ((rebalance_amount target_pos_pct price current_vol : ℤ) : ℚ),
           type := OrderType.MARKET, desc := "rebalance top-up" }] ∧
    (analyze_rest code price bias atr zone market_status target_pos_pct
      support resistance anchor_price rsi is_uptrend is_downtrend risk
      current_vol current_avail pairs warns).risk_triggered = false := by
  subst hrisk
  simp only [analyze_rest]
  rw [if_pos ⟨hdev, by simp, hzone⟩, if_pos hamt]
  exact ⟨rfl, rfl⟩

theorem analyze_rest_deep_risk (hrisk : risk = true) (hzone : zone = Zone.DEEP_DIP) :
    (analyze_rest code price bias atr zone market_status target_pos_pct
      support resistance anchor_price rsi is_uptrend is_downtrend risk
      current_vol current_avail pairs warns).suggested_orders =
      (pair_exits price current_avail pairs).1 := by
  subst hrisk
  subst hzone
  simp only [analyze_rest]
  rw [if_neg (by simp)]
  simp only [grid_generation]
  rw [grid_orders_deep_risk atr anchor_price rsi is_uptrend is_downtrend true _ rfl]
  simp

theorem analyze_rest_amounts (h0 : 0 ≤ current_avail)
    (h1 : is_lot_multiple current_avail)
    (h2 : ∀ p ∈ pairs, 0 ≤ p.buy_amount ∧ LOT_SIZE ∣ p.buy_amount) :
    ∀ o ∈ (analyze_rest code price bias atr zone market_status target_pos_pct
      support resistance anchor_price rsi is_uptrend is_downtrend risk
      current_vol current_avail pairs warns).suggested_orders,
      0 ≤ o.amount ∧ is_half_lot_multiple o.amount := by
  have hnn := pair_exits_avail_nonneg price pairs current_avail h0
  have hlot := pair_exits_avail_lot price pairs current_avail h1 (fun p hp => (h2 p hp).2)
  have hpe := pair_exits_mem price pairs current_avail
  have hga := grid_orders_amounts atr zone anchor_price rsi is_uptrend is_downtrend risk
    (pair_exits price current_avail pairs).2.1 hnn hlot
  have hpair : ∀ o ∈ (pair_exits price current_avail pairs).1,
      0 ≤ o.amount ∧ is_half_lot_multiple o.amount := by
    intro o ho
    obtain ⟨_, _, q, hq, ha⟩ := hpe o ho
    rw [ha]
    refine ⟨by exact_mod_cast (h2 q hq).1, ?_⟩
    exact is_lot_multiple_half _ (is_lot_multiple_intCast_of_dvd _ (h2 q hq).2)
  simp only [analyze_rest]
  split_ifs with hcond hamt
  · intro o ho
    simp only [List.mem_append, List.mem_cons, List.not_mem_nil, or_false] at ho
    rcases ho with ho | rfl
    · exact hpair o ho
    · constructor
      · show (0 : ℚ) ≤ ((rebalance_amount target_pos_pct price current_vol : ℤ) : ℚ)
        exact_mod_cast le_of_lt hamt
      · exact is_lot_multiple_half _ (round_to_lot_lot_multiple _)
  · intro o ho
    simp only [grid_generation, List.mem_append] at ho
    rcases ho with ho | ho
    · exact hpair o ho
    · exact hga o ho
  · intro o ho
    simp only [grid_generation, List.mem_append] at ho
    rcases ho with ho | ho
    · exact hpair o ho
    · exact hga o ho

end StrategyLemmas

theorem classify_zone_deep_or_gold_bias (bias : ℚ) (pb : Option ℚ)
    (h : (classify_zone bias pb).1 = Zone.DEEP_DIP ∨
         (classify_zone bias pb).1 = Zone.GOLD_ZONE) :
    bias < BIAS_THRESHOLDS.GOLD_ZONE_UPPER := by
  simp only [classify_zone] at h
  split_ifs at h with h1
  · simp at h
  · simp only at h
    unfold raw_zone at h
    simp only [BIAS_THRESHOLDS.DEEP_DIP, BIAS_THRESHOLDS.GOLD_ZONE_UPPER,
      BIAS_THRESHOLDS.OSCILLATION_UPPER, BIAS_THRESHOLDS.REDUCE_ZONE_UPPER] at h ⊢
    split_ifs at h <;> simp_all <;> linarith

theorem escape_override_no_escape (bias : ℚ) (ms : MarketStatus) (zone : Zone)
    (h : ¬ bias > BIAS_THRESHOLDS.ESCAPE_TOP_HIGH) :
    escape_override bias ms zone = (ms, TARGET_POSITION zone) := by
  unfold escape_override
  rw [if_neg h]

section MainLemmas

variable (code : String) (df : List IndRow) (current prev : IndRow)
  (bias atr : ℚ) (hold : Holdings) (pairs : List GridPair)

theorem analyze_main_risk_sells
    (h : (analyze_main code df current prev bias atr hold pairs).risk_triggered = true) :
    (∀ o ∈ (analyze_main code df current prev bias atr hold pairs).suggested_orders,
      o.direction = Direction.SELL) ∧
    (analyze_main code df current prev bias atr hold pairs).suggested_orders.length ≤
      pairs.length + 1 := by
  simp only [analyze_main] at h ⊢
  split_ifs at h ⊢ with h1 h2
  · constructor
    · intro o ho
      simp only [List.mem_cons, List.not_mem_nil, or_false] at ho
      subst ho
      rfl
    · simp
  · apply analyze_rest_risk_sells
    rfl
  · rw [analyze_rest_risk_triggered] at h
    apply analyze_rest_risk_sells
    exact h

theorem analyze_main_sum_sell (h : 0 ≤ hold.available) :
    sum_sell (analyze_main code df current prev bias atr hold pairs).suggested_orders ≤
      hold.available := by
  simp only [analyze_main]
  split_ifs with h1 h2
  · rw [sum_sell_singleton]
    simp only [if_pos rfl]
    exact min_le_right _ _
  · apply analyze_rest_sum_sell
    exact h
  · apply analyze_rest_sum_sell
    exact h

theorem analyze_main_amounts (h0 : 0 ≤ hold.available)
    (h1 : is_lot_multiple hold.available)
    (h2 : ∀ p ∈ pairs, 0 ≤ p.buy_amount ∧ LOT_SIZE ∣ p.buy_amount) :
    ∀ o ∈ (analyze_main code df current prev bias atr hold pairs).suggested_orders,
      0 ≤ o.amount ∧ is_half_lot_multiple o.amount := by
  simp only [analyze_main]
  split_ifs with hc1 hc2
  · intro o ho
    simp only [List.mem_cons, List.not_mem_nil, or_false] at ho
    subst ho
    constructor
    · have hsv : (0 : ℚ) ≤ ((trailing_sell_vol hold.volume : ℤ) : ℚ) := by
        have := trailing_sell_vol_pos hold.volume
        exact_mod_cast le_of_lt this
      exact le_min hsv h0
    · exact is_half_lot_multiple_min _ _
        (is_lot_multiple_half _ (trailing_sell_vol_lot hold.volume))
        (is_lot_multiple_half _ h1)
  · exact analyze_rest_amounts _ _ _ _ _ _ _ _ _ _ _ _ _ _ _ _ _ _ h0 h1 h2
  · exact analyze_rest_amounts _ _ _ _ _ _ _ _ _ _ _ _ _ _ _ _ _ _ h0 h1 h2

theorem analyze_main_trailing
    (htr : trailing_retr_exceeds df current.close atr = true)
    (hvol : hold.volume > 0) (havail : hold.available > 0) :
    (analyze_main code df current prev bias atr hold pairs).risk_triggered = true ∧
    (analyze_main code df current prev bias atr hold pairs).suggested_orders =
      [{ direction := Direction.SELL, price := current.close,
         amount := min ((trailing_sell_vol hold.volume : ℤ) : ℚ) hold.available,
         type := OrderType.MARKET, desc := "ATR trailing stop" }] := by
  simp only [analyze_main]
  rw [if_pos ⟨htr, hvol⟩, if_pos ⟨trailing_sell_vol_pos _, havail⟩]
  exact ⟨rfl, rfl⟩

theorem analyze_main_rebalance
    (hnt : ¬(trailing_retr_exceeds df current.close atr = true ∧ hold.volume > 0))
    (hdd : drawdown_triggered current.close hold = false)
    (hzone : (classify_zone bias prev.bias20).1 = Zone.DEEP_DIP ∨
             (classify_zone bias prev.bias20).1 = Zone.GOLD_ZONE)
    (hdev : pos_deviation_of (TARGET_POSITION (classify_zone bias prev.bias20).1)
        current.close hold.volume > REBALANCE_THRESHOLD)
    (hamt : rebalance_amount (TARGET_POSITION (classify_zone bias prev.bias20).1)
        current.close hold.volume > 0) :
    (analyze_main code df current prev bias atr hold pairs).suggested_orders =
      (pair_exits current.close hold.available pairs).1 ++
        [{ direction := Direction.BUY, price := current.close,
           amount := ((rebalance_amount (TARGET_POSITION (classify_zone bias prev.bias20).1)
             current.close hold.volume : ℤ) : ℚ),
           type := OrderType.MARKET, desc := "rebalance top-up" }] ∧
    (analyze_main code df current prev bias atr hold pairs).risk_triggered = false := by
  have hb : ¬ bias > BIAS_THRESHOLDS.ESCAPE_TOP_HIGH := by
    have hlt := classify_zone_deep_or_gold_bias bias prev.bias20 hzone
    unfold BIAS_THRESHOLDS.GOLD_ZONE_UPPER at hlt
    unfold BIAS_THRESHOLDS.ESCAPE_TOP_HIGH
    push_neg
    linarith
  simp only [analyze_main]
  rw [if_neg hnt, hdd,
    escape_override_no_escape bias (classify_zone bias prev.bias20).2
      (classify_zone bias prev.bias20).1 hb]
  exact analyze_rest_rebalance _ _ _ _ _ _ _ _ _ _ _ _ _ _ _ _ _ _ rfl hzone hdev hamt

theorem analyze_main_deep_drawdown
    (hnt : ¬(trailing_retr_exceeds df current.close atr = true ∧ hold.volume > 0))
    (hdd : drawdown_triggered current.close hold = true)
    (hzone : (classify_zone bias prev.bias20).1 = Zone.DEEP_DIP) :
    (analyze_main code df current prev bias atr hold pairs).suggested_orders =
      (pair_exits current.close hold.available pairs).1 ∧
    (analyze_main code df current prev bias atr hold pairs).risk_triggered = true := by
  simp only [analyze_main]
  rw [if_neg hnt, hdd]
  constructor
  · apply analyze_rest_deep_risk
    · rfl
    · exact hzone
  · apply analyze_rest_risk_triggered

end MainLemmas

section AnalyzeBranches

variable (code : String) (df : List IndRow) (hold : Holdings) (pairs : List GridPair)

theorem analyze_short (h5 : df.length < 5) :
    analyze code df hold pairs =
      { code := code, current_price := 0, current_bias := 0,
        market_status := MarketStatus.INSUFFICIENT_DATA, target_pos_pct := 0,
        warnings := ["insufficient data"] } := by
  simp only [analyze]
  rw [if_pos h5]

theorem analyze_no_bias (h5 : ¬ df.length < 5) (hb : (last_row df).bias20 = none) :
    analyze code df hold pairs =
      { code := code, current_price := (last_row df).close, current_bias := 0,
        market_status := MarketStatus.INSUFFICIENT_INDICATORS, target_pos_pct := 0 } := by
  simp only [analyze]
  rw [if_neg h5, hb]

theorem analyze_no_atr (bias : ℚ) (h5 : ¬ df.length < 5)
    (hb : (last_row df).bias20 = some bias) (ha : (last_row df).atr14 = none) :
    analyze code df hold pairs =
      { code := code, current_price := (last_row df).close, current_bias := 0,
        market_status := MarketStatus.INSUFFICIENT_INDICATORS, target_pos_pct := 0 } := by
  simp only [analyze]
  rw [if_neg h5, hb, ha]

theorem analyze_eq_main (bias atr : ℚ) (h5 : ¬ df.length < 5)
    (hb : (last_row df).bias20 = some bias) (ha : (last_row df).atr14 = some atr) :
    analyze code df hold pairs =
      analyze_main code df (last_row df) (prev_row df) bias atr hold pairs := by
  simp only [analyze]
  rw [if_neg h5, hb, ha]

end AnalyzeBranches

theorem calculate_indicators_length (cs : List Candle) :
    (calculate_indicators cs).length = cs.length := by
  simp [calculate_indicators]

theorem last_row_calculate (cs : List Candle) (h : 0 < cs.length) :
    last_row (calculate_indicators cs) = ind_row_at cs (cs.length - 1) := by
  unfold last_row
  rw [calculate_indicators_length]
  unfold calculate_indicators
  rw [List.getElem?_map, List.getElem?_range (by omega)]
  rfl

theorem sma_at_none (xs : List ℚ) (k i : ℕ) (h : ¬ k ≤ i + 1) :
    sma_at xs k i = none := by
  unfold sma_at
  rw [if_neg h]

theorem ind_row_bias_none (cs : List Candle) (i : ℕ) (h : i + 1 < 20) :
    (ind_row_at cs i).bias20 = none := by
  show bias_at cs i = none
  unfold bias_at
  rw [sma_at_none _ _ _ (by omega)]

/-! ## Claim C4 — zone classification -/

/-- C4: for every current and previous bias, the zone equals the half-open
interval map over the ordered thresholds (with the trend-reversal override
forcing OSCILLATION and a switch status when the previous bias was above
TREND_REVERSAL, the current bias is at or below it, and the raw class is
not DEEP_DIP), and the raw classification is monotone in the bias. -/
theorem zone_classification_spec (bias pb b1 b2 : ℚ) (hmono : b1 ≤ b2) :
    classify_zone bias (some pb) =
      (if pb > BIAS_THRESHOLDS.TREND_REVERSAL ∧ bias ≤ BIAS_THRESHOLDS.TREND_REVERSAL ∧
          raw_zone bias ≠ Zone.DEEP_DIP
        then (Zone.OSCILLATION, MarketStatus.OSCILLATION_SWITCH)
        else (raw_zone bias, MarketStatus.ZONE (raw_zone bias))) ∧
    raw_zone bias = spec_zone_map bias ∧
    Zone.idx (raw_zone b1) ≤ Zone.idx (raw_zone b2) := by
  refine ⟨?_, rfl, ?_⟩
  · simp only [classify_zone, bias_cross_down_3]
    by_cases h1 : pb > BIAS_THRESHOLDS.TREND_REVERSAL <;>
      by_cases h2 : bias ≤ BIAS_THRESHOLDS.TREND_REVERSAL <;>
      by_cases h3 : raw_zone bias = Zone.DEEP_DIP <;>
      simp [h1, h2, h3]
  · unfold raw_zone
    simp only [BIAS_THRESHOLDS.DEEP_DIP, BIAS_THRESHOLDS.GOLD_ZONE_UPPER,
      BIAS_THRESHOLDS.OSCILLATION_UPPER, BIAS_THRESHOLDS.REDUCE_ZONE_UPPER]
    split_ifs <;> simp [Zone.idx] <;> linarith

set_option maxRecDepth 100000 in
unseal Rat.add Rat.mul Rat.inv Rat.sub Rat.ofScientific in
/-- Witness for C4 at the spec's Scenario 1: bias20 = -4.76 with the
configured thresholds classifies as GOLD_ZONE, and monotonicity holds at
-4.76 ≤ 0. -/
theorem zone_classification_spec_witness :
    ((-4.76 : ℚ) ≤ 0) ∧
    Zone.idx (raw_zone (-4.76)) ≤ Zone.idx (raw_zone 0) ∧
    (classify_zone (-4.76) (some (-4.76))).1 = Zone.GOLD_ZONE :=
  ⟨by norm_num,
   (zone_classification_spec (-4.76) (-4.76) (-4.76) 0 (by norm_num)).2.2,
   by decide⟩

/-! ## Claim C5 — grid-step floor -/

/-- C5: for every zone, positive price and non-negative ATR, the dynamic
grid step equals the volatility-adjusted base step clamped from below by
`price * minProfitPct` for the applicable volatility bucket, so the step
is always at least that floor. -/
theorem grid_step_floor (zone : Zone) (price atr : ℚ) (hp : 0 < price) (ha : 0 ≤ atr) :
    calc_dynamic_step atr price zone =
      max (atr * GRID_COEFFICIENT zone * volatility_multiplier atr price)
        (price * min_profit_bucket atr price) ∧
    price * min_profit_bucket atr price ≤ calc_dynamic_step atr price zone := by
  have heq : calc_dynamic_step atr price zone =
      max (atr * GRID_COEFFICIENT zone * volatility_multiplier atr price)
        (price * min_profit_bucket atr price) := by
    simp only [calc_dynamic_step, volatility_multiplier, min_profit_bucket]
    split_ifs <;> first | rfl | rw [mul_one] | ring_nf
  exact ⟨heq, heq ▸ le_max_right _ _⟩

set_option maxRecDepth 100000 in
unseal Rat.add Rat.mul Rat.inv Rat.sub Rat.ofScientific in
/-- Witness for C5 at the spec's Scenario 2: price 10, atr 0.2 (normal
band), GOLD_ZONE coefficient 1.0 gives base step 0.2, floor 0.12, final
step 0.2; anchored at ma5 = 10.1 the grid levels are 9.9 and 10.3. -/
theorem grid_step_floor_witness :
    (0 : ℚ) < 10 ∧ (0 : ℚ) ≤ 0.2 ∧
    calc_dynamic_step 0.2 10 Zone.GOLD_ZONE =
      max (0.2 * GRID_COEFFICIENT Zone.GOLD_ZONE * volatility_multiplier 0.2 10)
        (10 * min_profit_bucket 0.2 10) ∧
    calc_dynamic_step 0.2 10 Zone.GOLD_ZONE = 0.2 ∧
    (10 : ℚ) * min_profit_bucket 0.2 10 = 0.12 ∧
    calc_dynamic_step 0.2 10.1 Zone.GOLD_ZONE = 0.2 ∧
    (10.1 : ℚ) - calc_dynamic_step 0.2 10.1 Zone.GOLD_ZONE = 9.9 ∧
    (10.1 : ℚ) + calc_dynamic_step 0.2 10.1 Zone.GOLD_ZONE = 10.3 :=
  ⟨by norm_num, by norm_num,
   (grid_step_floor Zone.GOLD_ZONE 10 0.2 (by norm_num) (by norm_num)).1,
   by decide, by decide, by decide, by decide, by decide⟩

/-! ## Claim C9 — trigger idempotence -/

theorem mark_grid_triggered_absent (store : List TriggerRecord)
    (date code : String) (price : ℚ) (direction ts : String)
    (h : store.any (fun r => same_key r date code price direction) = false) :
    mark_grid_triggered store date code price direction ts =
      store ++ [{ date := date, code := code, price := price,
                  direction := direction, timestamp := ts }] := by
  unfold mark_grid_triggered
  rw [h]
  simp

theorem mark_grid_triggered_present (store : List TriggerRecord)
    (date code : String) (price : ℚ) (direction ts : String)
    (h : store.any (fun r => same_key r date code price direction) = true) :
    mark_grid_triggered store date code price direction ts = store := by
  unfold mark_grid_triggered
  rw [h]
  simp

/-- C9: marking a trigger key twice leaves exactly one record for that key
in the store, and `is_grid_triggered` (absolute-tolerance price equality)
answers true after the first mark and after the repeated mark. -/
theorem trigger_idempotence (store : List TriggerRecord) (date code : String)
    (price : ℚ) (direction ts1 ts2 : String)
    (hfresh : store.countP (fun r => same_key r date code price direction) = 0) :
    mark_grid_triggered (mark_grid_triggered store date code price direction ts1)
        date code price direction ts2 =
      mark_grid_triggered store date code price direction ts1 ∧
    is_grid_triggered (mark_grid_triggered store date code price direction ts1)
        date code price direction = true ∧
    is_grid_triggered
        (mark_grid_triggered (mark_grid_triggered store date code price direction ts1)
          date code price direction ts2) date code price direction = true ∧
    (mark_grid_triggered (mark_grid_triggered store date code price direction ts1)
        date code price direction ts2).countP
      (fun r => same_key r date code price direction) = 1 := by
  have hall := List.countP_eq_zero.mp hfresh
  have hany : store.any (fun r => same_key r date code price direction) = false := by
    rw [List.any_eq_false]
    intro r hr
    simpa using hall r hr
  have hrec : same_key
      { date := date, code := code, price := price, direction := direction,
        timestamp := ts1 } date code price direction = true := by
    simp [same_key]
  have hs1 := mark_grid_triggered_absent store date code price direction ts1 hany
  have hmem : (⟨date, code, price, direction, ts1⟩ : TriggerRecord) ∈
      mark_grid_triggered store date code price direction ts1 := by
    rw [hs1]
    simp
  have hany1 : (mark_grid_triggered store date code price direction ts1).any
      (fun r => same_key r date code price direction) = true :=
    List.any_eq_true.mpr ⟨_, hmem, hrec⟩
  have hs2 := mark_grid_triggered_present
    (mark_grid_triggered store date code price direction ts1) date code price direction ts2 hany1
  have his : is_grid_triggered (mark_grid_triggered store date code price direction ts1)
      date code price direction = true := by
    unfold is_grid_triggered
    refine List.any_eq_true.mpr ⟨_, hmem, ?_⟩
    simp
    norm_num
  refine ⟨hs2, his, by rw [hs2]; exact his, ?_⟩
  rw [hs2, hs1, List.countP_append, hfresh]
  simp [hrec]

set_option maxRecDepth 100000 in
unseal Rat.add Rat.mul Rat.inv Rat.sub Rat.ofScientific in
/-- Witness for C9 on the empty store with a concrete key. -/
theorem trigger_idempotence_witness :
    mark_grid_triggered (mark_grid_triggered [] "2024-01-02" "sh510050" 3.10 "BUY" "t1")
        "2024-01-02" "sh510050" 3.10 "BUY" "t2" =
      mark_grid_triggered [] "2024-01-02" "sh510050" 3.10 "BUY" "t1" ∧
    is_grid_triggered (mark_grid_triggered [] "2024-01-02" "sh510050" 3.10 "BUY" "t1")
        "2024-01-02" "sh510050" 3.10 "BUY" = true ∧
    is_grid_triggered
        (mark_grid_triggered (mark_grid_triggered [] "2024-01-02" "sh510050" 3.10 "BUY" "t1")
          "2024-01-02" "sh510050" 3.10 "BUY" "t2") "2024-01-02" "sh510050" 3.10 "BUY" = true ∧
    (mark_grid_triggered (mark_grid_triggered [] "2024-01-02" "sh510050" 3.10 "BUY" "t1")
        "2024-01-02" "sh510050" 3.10 "BUY" "t2").countP
      (fun r => same_key r "2024-01-02" "sh510050" 3.10 "BUY") = 1 :=
  trigger_idempotence [] "2024-01-02" "sh510050" 3.10 "BUY" "t1" "t2" (by decide)

/-! ## Claim C3 — risk-trigger invariant -/

/-- C3 (amended): every plan returned by `analyze` with
`risk_triggered = true` contains only SELL orders (all buy generation —
rebalance, DEEP_DIP grid buys, oscillation grid buys — is suppressed),
and at most one order beyond the grid-pair exit sells (at most
`pairs.length + 1` orders in total).  The original "at most one order"
bound fails because the drawdown circuit breaker is non-terminal: pair
exits and REDUCE/ESCAPE/oscillation grid sells still run. -/
theorem risk_triggered_orders_sell (code : String) (df : List IndRow)
    (hold : Holdings) (pairs : List GridPair)
    (h : (analyze code df hold pairs).risk_triggered = true) :
    (∀ o ∈ (analyze code df hold pairs).suggested_orders,
      o.direction = Direction.SELL) ∧
    (analyze code df hold pairs).suggested_orders.length ≤ pairs.length + 1 := by
  by_cases h5 : df.length < 5
  · rw [analyze_short code df hold pairs h5] at h
    simp at h
  · rcases hb : (last_row df).bias20 with _ | bias
    · rw [analyze_no_bias code df hold pairs h5 hb] at h
      simp at h
    · rcases ha : (last_row df).atr14 with _ | atr
      · rw [analyze_no_atr code df hold pairs bias h5 hb ha] at h
        simp at h
      · rw [analyze_eq_main code df hold pairs bias atr h5 hb ha] at h ⊢
        exact analyze_main_risk_sells code df (last_row df) (prev_row df)
          bias atr hold pairs h

def rowC3 : IndRow :=
  { high := 7.6, low := 7.4, close := 7.5, ma5 := some 7.5, bias20 := some 6,
    atr14 := some 0.2, rsi14 := 50, kdjJ := some 50 }

def dfC3 : List IndRow := List.replicate 5 rowC3

def holdC3 : Holdings := { volume := 1000, available := 1000, avg_cost := 10 }

def pairsC3 : List GridPair :=
  [{ id := 1, buy_price := 7, buy_amount := 100, target_sell_price := 7 }]

set_option maxRecDepth 1000000 in
unseal Rat.add Rat.mul Rat.inv Rat.sub Rat.ofScientific in
/-- Counterexample to C3 as stated: with the drawdown circuit breaker
fired (price 7.5 against cost 10 is a -25% drawdown) in REDUCE_ZONE with
one triggered grid pair, the returned risk-triggered plan holds two
orders (the pair-exit sell and the reduce-zone grid sell), not at most
one. -/
theorem risk_triggered_at_most_one_counterexample :
    (analyze "sz159841" dfC3 holdC3 pairsC3).risk_triggered = true ∧
    (analyze "sz159841" dfC3 holdC3 pairsC3).suggested_orders.length = 2 := by
  exact ⟨by decide, by decide⟩

set_option maxRecDepth 1000000 in
unseal Rat.add Rat.mul Rat.inv Rat.sub Rat.ofScientific in
/-- Witness for the amended C3 at the counterexample input: both orders of
that risk-triggered plan are sells and the order count is bounded by the
pair count plus one. -/
theorem risk_triggered_orders_sell_witness :
    (∀ o ∈ (analyze "sh510050" dfC3 holdC3 pairsC3).suggested_orders,
      o.direction = Direction.SELL) ∧
    (analyze "sh510050" dfC3 holdC3 pairsC3).suggested_orders.length ≤
      pairsC3.length + 1 :=
  risk_triggered_orders_sell "sh510050" dfC3 holdC3 pairsC3 (by decide)

/-! ## Claim C10 — no-oversell invariant -/

/-- C10 (amended): for every call whose holding has a non-negative
available quantity `a`, the amounts of the SELL orders of the returned
plan sum to at most `a`: the trailing-stop sell is capped by `a`, each
pair-exit sell decrements the running availability counter it was checked
against, and the grid sells are capped by the decremented counter.  (The
unconditional claim fails for a negative `a`: see the counterexample.) -/
theorem no_oversell (code : String) (df : List IndRow) (hold : Holdings)
    (pairs : List GridPair) (h : 0 ≤ hold.available) :
    sum_sell (analyze code df hold pairs).suggested_orders ≤ hold.available := by
  by_cases h5 : df.length < 5
  · rw [analyze_short code df hold pairs h5]
    simpa [sum_sell_nil] using h
  · rcases hb : (last_row df).bias20 with _ | bias
    · rw [analyze_no_bias code df hold pairs h5 hb]
      simpa [sum_sell_nil] using h
    · rcases ha : (last_row df).atr14 with _ | atr
      · rw [analyze_no_atr code df hold pairs bias h5 hb ha]
        simpa [sum_sell_nil] using h
      · rw [analyze_eq_main code df hold pairs bias atr h5 hb ha]
        exact analyze_main_sum_sell code df (last_row df) (prev_row df)
          bias atr hold pairs h

def rowC10 : IndRow :=
  { high := 10.5, low := 10.5, close := 10.5, ma5 := some 10.5, bias20 := some 0,
    atr14 := some 0.4, rsi14 := 50, kdjJ := some 50 }

def dfC10 : List IndRow := List.replicate 5 rowC10

def holdC10 : Holdings := { volume := 0, available := -100, avg_cost := 0 }

set_option maxRecDepth 1000000 in
unseal Rat.add Rat.mul Rat.inv Rat.sub Rat.ofScientific in
/-- Counterexample to C10 as universally stated: with a (pathological)
negative available quantity the plan contains no sells, and the sell sum 0
exceeds the available quantity -100. -/
theorem no_oversell_counterexample :
    sum_sell (analyze "sh510050" dfC10 holdC10 []).suggested_orders = 0 ∧
    ¬ sum_sell (analyze "sh510050" dfC10 holdC10 []).suggested_orders ≤
      holdC10.available := by
  exact ⟨by decide, by decide⟩

def holdC10w : Holdings := { volume := 1000, available := 1000, avg_cost := 10 }

set_option maxRecDepth 1000000 in
unseal Rat.add Rat.mul Rat.inv Rat.sub Rat.ofScientific in
/-- Witness for the amended C10 at a concrete trailing-stop call: the sell
sum is bounded by the available quantity 1000. -/
theorem no_oversell_witness :
    sum_sell (analyze "sh510050" (List.replicate 20 rowC10) holdC10w
      [{ id := 1, buy_price := 10, buy_amount := 100, target_sell_price := 10 }]).suggested_orders ≤
      holdC10w.available :=
  no_oversell "sh510050" (List.replicate 20 rowC10) holdC10w
    [{ id := 1, buy_price := 10, buy_amount := 100, target_sell_price := 10 }] (by decide)

/-! ## Claim C6 — lot-multiple invariant -/

/-- C6 (amended): for every call whose holding availability is a
non-negative lot multiple and whose recorded grid pairs have non-negative
lot-multiple buy amounts, every order in the returned plan has a
non-negative amount that is a multiple of **half** the configured lot
size.  Full lot-multiplicity fails: the DEEP_DIP buys and the
REDUCE/ESCAPE sell are sized `int(lot_amount * 1.5)` without re-rounding,
which for a one-lot base is 150 shares. -/
theorem order_amounts_half_lot (code : String) (df : List IndRow)
    (hold : Holdings) (pairs : List GridPair)
    (h0 : 0 ≤ hold.available) (h1 : is_lot_multiple hold.available)
    (h2 : ∀ p ∈ pairs, 0 ≤ p.buy_amount ∧ LOT_SIZE ∣ p.buy_amount) :
    ∀ o ∈ (analyze code df hold pairs).suggested_orders,
      0 ≤ o.amount ∧ is_half_lot_multiple o.amount := by
  by_cases h5 : df.length < 5
  · rw [analyze_short code df hold pairs h5]
    intro o ho
    simp at ho
  · rcases hb : (last_row df).bias20 with _ | bias
    · rw [analyze_no_bias code df hold pairs h5 hb]
      intro o ho
      simp at ho
    · rcases ha : (last_row df).atr14 with _ | atr
      · rw [analyze_no_atr code df hold pairs bias h5 hb ha]
        intro o ho
        simp at ho
      · rw [analyze_eq_main code df hold pairs bias atr h5 hb ha]
        exact analyze_main_amounts code df (last_row df) (prev_row df)
          bias atr hold pairs h0 h1 h2

def rowC6 : IndRow :=
  { high := 20, low := 20, close := 20, ma5 := some 20, bias20 := some (-7),
    atr14 := some 0.1, rsi14 := 50, kdjJ := some 50 }

def dfC6 : List IndRow := List.replicate 5 rowC6

def holdC6 : Holdings := { volume := 1600, available := 1600, avg_cost := 0 }

set_option maxRecDepth 1000000 in
unseal Rat.add Rat.mul Rat.inv Rat.sub Rat.ofScientific in
/-- Counterexample to C6 as stated: a DEEP_DIP call at price 20 produces
the two 1.5-lot grid buys of 150 shares each, and 150 is not a multiple of
the configured lot size 100. -/
theorem lot_multiple_counterexample :
    (analyze "sh510050" dfC6 holdC6 []).suggested_orders.map TradeOrder.amount
      = [150, 150] ∧
    ¬ is_lot_multiple 150 := by
  refine ⟨by decide, ?_⟩
  rintro ⟨k, hk⟩
  unfold LOT_SIZE at hk
  have h2 : (3 : ℚ) = 2 * (k : ℚ) := by push_cast at hk; linarith
  have h3 : (3 : ℤ) = 2 * k := by exact_mod_cast h2
  omega

def rowC6w : IndRow :=
  { high := 10.5, low := 10.5, close := 10.5, ma5 := some 10.5, bias20 := some 0,
    atr14 := some 0.2, rsi14 := 50, kdjJ := some 50 }

def dfC6w : List IndRow := List.replicate 5 rowC6w

def holdC6w : Holdings := { volume := 1000, available := 1000, avg_cost := 10 }

def pairsC6w : List GridPair :=
  [{ id := 1, buy_price := 10, buy_amount := 100, target_sell_price := 10 }]

set_option maxRecDepth 1000000 in
unseal Rat.add Rat.mul Rat.inv Rat.sub Rat.ofScientific in
/-- Witness for the amended C6 at a concrete oscillation-zone call with a
triggered pair, instantiated at the pair-exit sell of that plan. -/
theorem order_amounts_half_lot_witness :
    0 ≤ (⟨Direction.SELL, 10.5, 100, OrderType.LIMIT, "pair take profit"⟩ :
      TradeOrder).amount ∧
    is_half_lot_multiple
      (⟨Direction.SELL, 10.5, 100, OrderType.LIMIT, "pair take profit"⟩ :
        TradeOrder).amount :=
  order_amounts_half_lot "sh510050" dfC6w holdC6w pairsC6w (by decide)
    ⟨10, by decide⟩
    (by
      intro p hp
      simp only [pairsC6w, List.mem_cons, List.not_mem_nil, or_false] at hp
      subst hp
      exact ⟨by decide, ⟨1, by decide⟩⟩)
    _ (by decide)

/-! ## Claim C7 — DEEP_DIP grid generation and the risk flag -/

/-- C7 (amended): the DEEP_DIP grid-buy branch **does** consult the
`risk_triggered` flag (contrary to the spec's design note): when the
drawdown circuit breaker has fired in zone DEEP_DIP (and the trailing stop
has not), the plan carries `risk_triggered = true` and its orders are
exactly the pair-exit sells — the two 1.5-lot LIMIT BUYs are not
emitted even though RSI is at or below the overbought threshold. -/
theorem deep_dip_consults_risk (code : String) (df : List IndRow)
    (hold : Holdings) (pairs : List GridPair) (bias atr : ℚ)
    (h5 : ¬ df.length < 5)
    (hb : (last_row df).bias20 = some bias)
    (ha : (last_row df).atr14 = some atr)
    (hnt : ¬(trailing_retr_exceeds df (last_row df).close atr = true ∧ hold.volume > 0))
    (hdd : drawdown_triggered (last_row df).close hold = true)
    (hzone : (classify_zone bias (prev_row df).bias20).1 = Zone.DEEP_DIP)
    (hrsi : (last_row df).rsi14 ≤ 75) :
    (analyze code df hold pairs).suggested_orders =
      (pair_exits (last_row df).close hold.available pairs).1 ∧
    (analyze code df hold pairs).risk_triggered = true := by
  rw [analyze_eq_main code df hold pairs bias atr h5 hb ha]
  exact analyze_main_deep_drawdown code df (last_row df) (prev_row df)
    bias atr hold pairs hnt hdd hzone

def rowC7 : IndRow :=
  { high := 7, low := 7, close := 7, ma5 := some 7, bias20 := some (-7),
    atr14 := some 0.1, rsi14 := 50, kdjJ := some 50 }

def dfC7 : List IndRow := List.replicate 5 rowC7

def holdC7 : Holdings := { volume := 1000, available := 1000, avg_cost := 10 }

set_option maxRecDepth 1000000 in
unseal Rat.add Rat.mul Rat.inv Rat.sub Rat.ofScientific in
/-- Counterexample to C7 as stated: a DEEP_DIP call (bias -7) with the
drawdown breaker fired (price 7 against cost 10) and RSI 50 reaches
standard grid generation yet emits **no** orders — the claimed two
LIMIT BUYs are absent because the branch checks `risk_triggered`. -/
theorem deep_dip_risk_counterexample :
    (analyze "sh512480" dfC7 holdC7 []).risk_triggered = true ∧
    (analyze "sh512480" dfC7 holdC7 []).market_status = MarketStatus.ZONE Zone.DEEP_DIP ∧
    (last_row dfC7).rsi14 ≤ 75 ∧
    (analyze "sh512480" dfC7 holdC7 []).suggested_orders = [] := by
  exact ⟨by decide, by decide, by decide, by decide⟩

set_option maxRecDepth 1000000 in
unseal Rat.add Rat.mul Rat.inv Rat.sub Rat.ofScientific in
/-- Witness for the amended C7 at the same concrete DEEP_DIP input. -/
theorem deep_dip_consults_risk_witness :
    (analyze "sh512760" dfC7 holdC7 []).suggested_orders =
      (pair_exits (last_row dfC7).close holdC7.available []).1 ∧
    (analyze "sh512760" dfC7 holdC7 []).risk_triggered = true :=
  deep_dip_consults_risk "sh512760" dfC7 holdC7 [] (-7) 0.1 (by decide)
    (by decide) (by decide) (by decide) (by decide) (by decide) (by decide)

/-! ## Claim C2 — ATR trailing stop -/

/-- C2 (amended): when the 20-period trailing-high retracement exceeds
`3 * atr14`, the holding volume is positive **and the available quantity
is positive**, `analyze` returns immediately with `risk_triggered = true`
and exactly one order: a MARKET SELL for
`min(round_to_lot(max(100, int(volume * 0.5))), available)` shares.  The
original claim omitted the availability condition: with
`available ≤ 0` the stop sets the flag but emits nothing and falls
through (see the counterexample). -/
theorem trailing_stop_fires (code : String) (df : List IndRow)
    (hold : Holdings) (pairs : List GridPair) (bias atr : ℚ)
    (h5 : ¬ df.length < 5)
    (hb : (last_row df).bias20 = some bias)
    (ha : (last_row df).atr14 = some atr)
    (htr : trailing_retr_exceeds df (last_row df).close atr = true)
    (hvol : hold.volume > 0) (havail : hold.available > 0) :
    (analyze code df hold pairs).risk_triggered = true ∧
    (analyze code df hold pairs).suggested_orders =
      [{ direction := Direction.SELL, price := (last_row df).close,
         amount := min ((trailing_sell_vol hold.volume : ℤ) : ℚ) hold.available,
         type := OrderType.MARKET, desc := "ATR trailing stop" }] := by
  rw [analyze_eq_main code df hold pairs bias atr h5 hb ha]
  exact analyze_main_trailing code df (last_row df) (prev_row df)
    bias atr hold pairs htr hvol havail

def rowC2 : IndRow :=
  { high := 12, low := 10, close := 10.5, ma5 := some 10.5, bias20 := some 0,
    atr14 := some 0.4, rsi14 := 50, kdjJ := some 50 }

def dfC2 : List IndRow := List.replicate 20 rowC2

def holdC2 : Holdings := { volume := 1000, available := 0, avg_cost := 10 }

set_option maxRecDepth 1000000 in
unseal Rat.add Rat.mul Rat.inv Rat.sub Rat.ofScientific in
/-- Counterexample to C2 as stated: recentHigh 12, price 10.5, atr 0.4
(retracement 1.5 > 1.2), volume 1000 > 0, but available quantity 0 — the
trailing stop marks `risk_triggered` yet the returned plan contains zero
orders, not exactly one, and evaluation did not return at the stop. -/
theorem trailing_stop_counterexample :
    trailing_retr_exceeds dfC2 (last_row dfC2).close 0.4 = true ∧
    holdC2.volume > 0 ∧
    (analyze "sh510050" dfC2 holdC2 []).risk_triggered = true ∧
    (analyze "sh510050" dfC2 holdC2 []).suggested_orders = [] := by
  exact ⟨by decide, by decide, by decide, by decide⟩

def holdC2w : Holdings := { volume := 1000, available := 1000, avg_cost := 10 }

set_option maxRecDepth 1000000 in
unseal Rat.add Rat.mul Rat.inv Rat.sub Rat.ofScientific in
/-- Witness for the amended C2 at the spec's Scenario 3: volume 1000,
avgCost 10, recentHigh 12, price 10.5, atr14 0.4 (and available 1000)
yields one MARKET SELL for 500 shares with `risk_triggered = true`. -/
theorem trailing_stop_fires_witness :
    (analyze "sh510050" dfC2 holdC2w []).risk_triggered = true ∧
    (analyze "sh510050" dfC2 holdC2w []).suggested_orders =
      [{ direction := Direction.SELL, price := 10.5, amount := 500,
         type := OrderType.MARKET, desc := "ATR trailing stop" }] := by
  obtain ⟨hr, ho⟩ := trailing_stop_fires "sh510050" dfC2 holdC2w [] 0 0.4
    (by decide) (by decide) (by decide) (by decide) (by decide) (by decide)
  refine ⟨hr, ?_⟩
  rw [ho]
  decide

/-! ## Claim C1 — rebalance priority -/

/-- C1 (amended): when neither the trailing stop nor the drawdown breaker
fires, the zone is DEEP_DIP or GOLD_ZONE, the position deviation exceeds
0.15 and the damped half-deviation buy rounds to a positive lot count,
the rebalance stage emits its MARKET BUY and returns before standard grid
generation — but the grid-pair exit stage runs **before** rebalance in
the code, so the returned plan is the pair-exit sells followed by the
rebalance buy, not a single order. -/
theorem rebalance_after_pair_exits (code : String) (df : List IndRow)
    (hold : Holdings) (pairs : List GridPair) (bias atr : ℚ)
    (h5 : ¬ df.length < 5)
    (hb : (last_row df).bias20 = some bias)
    (ha : (last_row df).atr14 = some atr)
    (hnt : ¬(trailing_retr_exceeds df (last_row df).close atr = true ∧ hold.volume > 0))
    (hdd : drawdown_triggered (last_row df).close hold = false)
    (hzone : (classify_zone bias (prev_row df).bias20).1 = Zone.DEEP_DIP ∨
             (classify_zone bias (prev_row df).bias20).1 = Zone.GOLD_ZONE)
    (hdev : pos_deviation_of (TARGET_POSITION (classify_zone bias (prev_row df).bias20).1)
        (last_row df).close hold.volume > REBALANCE_THRESHOLD)
    (hamt : rebalance_amount (TARGET_POSITION (classify_zone bias (prev_row df).bias20).1)
        (last_row df).close hold.volume > 0) :
    (analyze code df hold pairs).suggested_orders =
      (pair_exits (last_row df).close hold.available pairs).1 ++
        [{ direction := Direction.BUY, price := (last_row df).close,
           amount := ((rebalance_amount
             (TARGET_POSITION (classify_zone bias (prev_row df).bias20).1)
             (last_row df).close hold.volume : ℤ) : ℚ),
           type := OrderType.MARKET, desc := "rebalance top-up" }] ∧
    (analyze code df hold pairs).risk_triggered = false := by
  rw [analyze_eq_main code df hold pairs bias atr h5 hb ha]
  exact analyze_main_rebalance code df (last_row df) (prev_row df)
    bias atr hold pairs hnt hdd hzone hdev hamt

def rowC1 : IndRow :=
  { high := 10.5, low := 10.5, close := 10.5, ma5 := some 10.5, bias20 := some (-4),
    atr14 := some 0.1, rsi14 := 50, kdjJ := some 50 }

def dfC1 : List IndRow := List.replicate 5 rowC1

def holdC1 : Holdings := { volume := 0, available := 1000, avg_cost := 0 }

def pairsC1 : List GridPair :=
  [{ id := 1, buy_price := 10, buy_amount := 100, target_sell_price := 10 }]

set_option maxRecDepth 1000000 in
unseal Rat.add Rat.mul Rat.inv Rat.sub Rat.ofScientific in
/-- Counterexample to C1 as stated: GOLD_ZONE (bias -4), no risk trigger,
deviation 0.75 > 0.15, one active pair whose exit fires — the returned
plan contains two orders (the pair-exit LIMIT SELL, then the rebalance
MARKET BUY), not exactly one, because the pair-exit stage precedes
rebalance in evaluation order. -/
theorem rebalance_priority_counterexample :
    (analyze "sh510050" dfC1 holdC1 pairsC1).risk_triggered = false ∧
    (analyze "sh510050" dfC1 holdC1 pairsC1).market_status =
      MarketStatus.ZONE Zone.GOLD_ZONE ∧
    pos_deviation_of (TARGET_POSITION Zone.GOLD_ZONE) (last_row dfC1).close
      holdC1.volume > REBALANCE_THRESHOLD ∧
    (analyze "sh510050" dfC1 holdC1 pairsC1).suggested_orders.length = 2 := by
  exact ⟨by decide, by decide, by decide, by decide⟩

set_option maxRecDepth 1000000 in
unseal Rat.add Rat.mul Rat.inv Rat.sub Rat.ofScientific in
/-- Witness for the amended C1 at the same concrete GOLD_ZONE input: the
plan is the pair-exit sell followed by the damped rebalance MARKET BUY of
`round_to_lot(0.5 * 0.75 * 40000 / 10.5) = 1400` shares. -/
theorem rebalance_after_pair_exits_witness :
    (analyze "sh588090" dfC1 holdC1 pairsC1).suggested_orders =
      [{ direction := Direction.SELL, price := 10.5, amount := 100,
         type := OrderType.LIMIT, desc := "pair take profit" },
       { direction := Direction.BUY, price := 10.5, amount := 1400,
         type := OrderType.MARKET, desc := "rebalance top-up" }] ∧
    (analyze "sh588090" dfC1 holdC1 pairsC1).risk_triggered = false := by
  obtain ⟨ho, hr⟩ := rebalance_after_pair_exits "sh588090" dfC1 holdC1 pairsC1
    (-4) 0.1 (by decide) (by decide) (by decide) (by decide) (by decide)
    (Or.inr (by decide)) (by decide) (by decide)
  refine ⟨?_, hr⟩
  rw [ho]
  decide

/-! ## Claim C8 — insufficient-data handling -/

/-- C8 (amended): `analyze` on any candle sequence shorter than the
20-period warm-up returns (without raising) a plan with an empty order
list whose status is the INSUFFICIENT_DATA sentinel for fewer than 5
candles and the INSUFFICIENT_INDICATORS sentinel for 5 to 19 candles (the
last-row 20-period bias is still undefined there).  A zone decision is
already produced from 20 candles on, not only after ~25. -/
theorem insufficient_data_plans (code : String) (hold : Holdings)
    (pairs : List GridPair) (cs : List Candle) (h : cs.length < 20) :
    (analyze_candles code cs hold pairs).suggested_orders = [] ∧
    (analyze_candles code cs hold pairs).market_status =
      (if cs.length < 5 then MarketStatus.INSUFFICIENT_DATA
       else MarketStatus.INSUFFICIENT_INDICATORS) := by
  unfold analyze_candles
  by_cases h5 : cs.length < 5
  · rw [analyze_short code _ hold pairs (by rw [calculate_indicators_length]; exact h5),
      if_pos h5]
    exact ⟨rfl, rfl⟩
  · have hlen : ¬ (calculate_indicators cs).length < 5 := by
      rw [calculate_indicators_length]
      exact h5
    have hpos : 0 < cs.length := by omega
    have hb : (last_row (calculate_indicators cs)).bias20 = none := by
      rw [last_row_calculate cs hpos]
      exact ind_row_bias_none cs _ (by omega)
    rw [analyze_no_bias code _ hold pairs hlen hb, if_neg h5]
    exact ⟨rfl, rfl⟩

def candC8 : Candle :=
  { open_ := 1, high := 1.02, low := 0.98, close := 1, volume := 10000 }

set_option maxRecDepth 1000000 in
unseal Rat.add Rat.mul Rat.inv Rat.sub Rat.ofScientific in
/-- Counterexample to C8 as stated: a 10-candle sequence (shorter than the
warm-up) yields the INSUFFICIENT_INDICATORS sentinel, not the
insufficient-data sentinel; and already at 20 candles a zone decision
(OSCILLATION here) is produced, refuting the "more than ~25 periods"
bound. -/
theorem insufficient_sentinel_counterexample :
    (analyze_candles "sh510050" (List.replicate 10 candC8) {} []).market_status =
      MarketStatus.INSUFFICIENT_INDICATORS ∧
    ¬ (analyze_candles "sh510050" (List.replicate 10 candC8) {} []).market_status =
      MarketStatus.INSUFFICIENT_DATA ∧
    (analyze_candles "sh510050" (List.replicate 20 candC8) {} []).market_status =
      MarketStatus.ZONE Zone.OSCILLATION := by
  exact ⟨by decide, by decide, by decide⟩

set_option maxRecDepth 1000000 in
unseal Rat.add Rat.mul Rat.inv Rat.sub Rat.ofScientific in
/-- Witness for the amended C8 on a three-candle sequence: empty orders
and the INSUFFICIENT_DATA sentinel. -/
theorem insufficient_data_plans_witness :
    (analyze_candles "sh510050" (List.replicate 3 candC8) {} []).suggested_orders = [] ∧
    (analyze_candles "sh510050" (List.replicate 3 candC8) {} []).market_status =
      MarketStatus.INSUFFICIENT_DATA := by
  obtain ⟨h1, h2⟩ := insufficient_data_plans "sh510050" {} [] (List.replicate 3 candC8)
    (by decide)
  refine ⟨h1, ?_⟩
  rw [h2]
  decide

end AtrGrid
